import Mathlib

set_option linter.unusedVariables false

/-! Verification development for the ComputeHorde executor `JobDriver`
(`executor/app/src/compute_horde_executor/executor/job_driver.py`).

The driver is embedded shallowly. Every `await` on an external collaborator
(miner client, job runner, docker containers) is an oracle outcome recorded in
an `Env` value, and the driver's visible behaviour — deadline calls, stage
transitions, outbound wire messages, cleanup — is the list of `Event`s
produced by a deterministic interpreter `DriverM`. Pure helpers
(`run_cve_2022_0492_check_or_fail`, `run_nvidia_toolkit_version_check_or_fail`,
`fail_if_execution_unsuccessful`) are translated directly from the source. -/

/-- Splits a character list at every occurrence of `c`, keeping empty pieces,
mirroring Python `str.split(c)` semantics on the pieces level. -/
def splitChar (c : Char) : List Char → List (List Char)
  | [] => [[]]
  | x :: xs =>
    if x = c then [] :: splitChar c xs
    else
      match splitChar c xs with
      | [] => [[x]]
      | g :: gs => (x :: g) :: gs

/-- Does `hay` start with `needle`? -/
def charsStartWith : List Char → List Char → Bool
  | [], _ => true
  | _ :: _, [] => false
  | n :: ns, h :: hs => n = h && charsStartWith ns hs

/-- Does `hay` contain `needle` as a contiguous segment? -/
def charsContain (hay needle : List Char) : Bool :=
  charsStartWith needle hay ||
    match hay with
    | [] => false
    | _ :: hs => charsContain hs needle

/-- Python `needle in hay` substring containment. -/
def strContains (hay needle : String) : Bool := charsContain hay.data needle.data

/-- Python `str.splitlines` restricted to `\n` separators: all line pieces,
with a trailing empty piece (from a final newline, or an empty string) dropped. -/
def pySplitlines (s : String) : List String :=
  let parts := (splitChar '\n' s.data).map String.mk
  if parts.getLast? = some "" then parts.dropLast else parts

/-- Python `s.rpartition(" ")[2]`: the part after the last space, or the whole
string when it has no space. -/
def pyRPartitionAfter (s : String) : String :=
  String.mk ((splitChar ' ' s.data).getLastD [])

/-- Accumulating decimal parse of a digit list. -/
def charsToNatAux : List Char → Nat → Option Nat
  | [], acc => some acc
  | c :: cs, acc =>
    if h : c.isDigit then charsToNatAux cs (acc * 10 + (c.toNat - 48)) else none

/-- Parse a non-empty all-digit string as a natural number. -/
def parseNatComp (s : String) : Option Nat :=
  match s.data with
  | [] => none
  | l => charsToNatAux l 0

/-- Modelled from the spec: `packaging.version.parse` (third-party `packaging`
library, not under src/), restricted to dotted numeric versions as the spec
describes: "treat the trailing token as a semantic version". -/
def parseVersion (s : String) : Option (List Nat) :=
  ((splitChar '.' s.data).map String.mk).mapM parseNatComp

/-- Modelled from the spec: comparison of parsed versions, componentwise with
zero padding, as `packaging.version` orders plain numeric releases. -/
def versionLe : List Nat → List Nat → Bool
  | [], _ => true
  | a :: as, [] => a = 0 && versionLe as []
  | a :: as, b :: bs => a < b || (a = b && versionLe as bs)

/-- The `JobStage` from `compute_horde.protocol_consts`. -/
inductive JobStage where
  | UNKNOWN
  | EXECUTOR_STARTUP
  | VOLUME_DOWNLOAD
  | EXECUTION
  | RESULT_UPLOAD
deriving DecidableEq, Repr

/-- The `JobFailureReason` from `compute_horde.protocol_consts`. -/
inductive JobFailureReason where
  | TIMEOUT
  | NONZERO_RETURN_CODE
  | DOWNLOAD_FAILED
  | UPLOAD_FAILED
deriving DecidableEq, Repr

/-- The `HordeFailureReason` from `compute_horde.protocol_consts`. `job_driver.py`
names only `SECURITY_CHECK_FAILED`; `GENERIC_ERROR` is modelled from the spec
as "the catch-all for wrapped unexpected exceptions" and as the default reason
of a bare `HordeError(message)`. -/
inductive HordeFailureReason where
  | SECURITY_CHECK_FAILED
  | GENERIC_ERROR
deriving DecidableEq, Repr

/-- The `JobParticipantType` from `compute_horde.protocol_consts`. -/
inductive JobParticipantType where
  | MINER
  | VALIDATOR
  | EXECUTOR
deriving DecidableEq, Repr

/-- A scalar value inside a `FailureContext` (map of string to scalar). -/
inductive CtxVal where
  | s (v : String)
  | i (v : Int)
  | stage (v : JobStage)
deriving DecidableEq, Repr

/-- The `FailureContext`: structured debugging annotations attached to failures. -/
abbrev Ctx := List (String × CtxVal)

/-- The runner's `ExecutionResult` (spec §3): produced after container exit. -/
structure ExecutionResult where
  return_code : Int
  stdout : String
  stderr : String
  timed_out : Bool
deriving DecidableEq, Repr

/-- Host hardware fingerprint, opaque to the driver. -/
structure MachineSpecs where
  raw : String
deriving DecidableEq, Repr

/-- The `executor_timing` of `V0InitialJobRequest`: the per-stage budget. -/
structure TimingDetails where
  allowed_leeway : Rat
  download_time_limit : Rat
  execution_time_limit : Rat
  streaming_start_time_limit : Rat
  upload_time_limit : Rat
deriving DecidableEq, Repr

/-- The `streaming_details` of `V0InitialJobRequest`. Modelled from the spec
(`compute_horde.protocol_messages` is not under src/): the spec lists
`streaming_details = {executor_ip, public_key}` with no optional marker on
`public_key`, while the driver's own `assert ... executor_ip is not None`
shows `executor_ip` is optional. -/
structure StreamingDetails where
  executor_ip : Option String
  public_key : String
deriving DecidableEq, Repr

/-- The fields of `V0InitialJobRequest` the driver reads. -/
structure V0InitialJobRequest where
  executor_timing : Option TimingDetails
  timeout_seconds : Option Rat
  streaming_details : Option StreamingDetails
deriving DecidableEq, Repr

/-- The final payload sent by `miner_client.send_result` (emitted on the wire
as `V0JobFinishedRequest`); its non-specs content is opaque to the driver. -/
structure JobResult where
  data : String
  specs : Option MachineSpecs
deriving DecidableEq, Repr

/-- The `V0JobFailedRequest` as built by `JobDriver.send_job_failed`. -/
structure V0JobFailedRequest where
  job_uuid : String
  stage : JobStage
  reason : JobFailureReason
  message : String
  docker_process_exit_status : Option Int
  docker_process_stdout : Option String
  docker_process_stderr : Option String
  context : Option Ctx
deriving DecidableEq, Repr

/-- The `V0HordeFailedRequest` as built by `JobDriver.send_horde_failed`. -/
structure V0HordeFailedRequest where
  job_uuid : String
  reported_by : JobParticipantType
  reason : HordeFailureReason
  message : String
  context : Option Ctx
deriving DecidableEq, Repr

/-- Python exceptions that can propagate to the driver's `except` clauses:
`JobError`, `HordeError`, `TimeoutError`, `AssertionError`, and anything else. -/
inductive PyError where
  | timeoutError
  | jobError (message : String) (reason : JobFailureReason) (context : Option Ctx)
  | hordeError (message : String) (reason : HordeFailureReason) (context : Option Ctx)
  | assertionError (message : String)
  | otherError (message : String)
deriving DecidableEq, Repr

/-- Is this exception a `JobError`? (`except JobError` matches exactly these.) -/
def PyError.isJobErr : PyError → Bool
  | .jobError _ _ _ => true
  | _ => false

/-- The payload of a `HordeError` about to be sent. -/
structure HordeErrorData where
  message : String
  reason : HordeFailureReason
  context : Option Ctx
deriving DecidableEq, Repr

/-- Modelled from the spec: `HordeError.wrap_unhandled` from
`compute_horde.job_errors` (code of this repository not under src/). Any
unanticipated exception caught at the driver boundary is wrapped into a
`HordeError` with the catch-all reason; an exception that already is a
`HordeError` keeps its message, reason and context. -/
def HordeError.wrap_unhandled : PyError → HordeErrorData
  | .hordeError m r c => { message := m, reason := r, context := c }
  | .jobError m _ c => { message := m, reason := .GENERIC_ERROR, context := c }
  | .timeoutError => { message := "TimeoutError", reason := .GENERIC_ERROR, context := none }
  | .assertionError m => { message := m, reason := .GENERIC_ERROR, context := none }
  | .otherError m => { message := m, reason := .GENERIC_ERROR, context := none }

/-- Modelled from the spec: `HordeError.add_context` from
`compute_horde.job_errors` — attach an extra entry to the error's failure
context, creating the context when absent. -/
def HordeErrorData.add_context (d : HordeErrorData) (kv : String × CtxVal) : HordeErrorData :=
  { d with context := some (d.context.getD [] ++ [kv]) }

/-- The literal the CVE-2022-0492 probe must print (`expected_output` in
`run_cve_2022_0492_check_or_fail`). -/
def CVE_2022_0492_EXPECTED_OUTPUT : String := "Contained: cannot escape via CVE-2022-0492"

/-- The `JobDriver.run_cve_2022_0492_check_or_fail` (job_driver.py lines 197-225),
as a pure function of the probe container's exit code and captured streams.
Note the second failure branch of the source puts only `stdout` and `stderr`
in the context — no `return_code` — and uses the literal (and odd) message
text `CVE-HordeFailureReason-0492 check failed: ...`. -/
def run_cve_2022_0492_check_or_fail (return_code : Int) (stdout stderr : String) :
    Except PyError Unit :=
  if return_code ≠ 0 then
    .error (.hordeError "CVE-2022-0492 check failed" .SECURITY_CHECK_FAILED
      (some [("return_code", .i return_code), ("stdout", .s stdout), ("stderr", .s stderr)]))
  else if !(strContains stdout CVE_2022_0492_EXPECTED_OUTPUT) then
    .error (.hordeError
      ("CVE-HordeFailureReason-0492 check failed: \"" ++ CVE_2022_0492_EXPECTED_OUTPUT
        ++ "\" not in stdout.")
      .SECURITY_CHECK_FAILED
      (some [("stdout", .s stdout), ("stderr", .s stderr)]))
  else
    .ok ()

/-- The `NVIDIA_CONTAINER_TOOLKIT_MINIMUM_SAFE_VERSION = parse("1.17.4")`. -/
def NVIDIA_CONTAINER_TOOLKIT_MINIMUM_SAFE_VERSION : List Nat := [1, 17, 4]

/-- The `JobDriver.run_nvidia_toolkit_version_check_or_fail` (job_driver.py lines
227-282) as a pure function of the probe container's exit code and captured
streams: non-zero exit, empty output, and an outdated parsed version each
raise `HordeError(SECURITY_CHECK_FAILED)`; an unparsable version token makes
`packaging.version.parse` raise (a non-horde exception). -/
def run_nvidia_toolkit_version_check_or_fail (return_code : Int) (stdout stderr : String) :
    Except PyError Unit :=
  if return_code ≠ 0 then
    .error (.hordeError ("nvidia-container-toolkit check failed: exit code " ++ toString return_code)
      .SECURITY_CHECK_FAILED
      (some [("return_code", .i return_code), ("stdout", .s stdout), ("stderr", .s stderr)]))
  else
    match pySplitlines stdout with
    | [] =>
      .error (.hordeError "nvidia-container-toolkit check failed: no output from nvidia-container-toolkit"
        .SECURITY_CHECK_FAILED
        (some [("return_code", .i return_code), ("stdout", .s stdout), ("stderr", .s stderr)]))
    | line0 :: _ =>
      let version := pyRPartitionAfter line0
      match parseVersion version with
      | none => .error (.otherError ("InvalidVersion: " ++ version))
      | some v =>
        if versionLe NVIDIA_CONTAINER_TOOLKIT_MINIMUM_SAFE_VERSION v then
          .ok ()
        else
          .error (.hordeError
            ("Outdated NVIDIA Container Toolkit detected:" ++ version ++ "\" not >= 1.17.4")
            .SECURITY_CHECK_FAILED
            (some [("return_code", .i return_code), ("stdout", .s stdout), ("stderr", .s stderr)]))

/-- The `JobDriver.fail_if_execution_unsuccessful` (job_driver.py lines 284-297)
as a pure function of `runner.execution_result`. -/
def fail_if_execution_unsuccessful (execution_result : Option ExecutionResult) :
    Except PyError Unit :=
  match execution_result with
  | none => .error (.assertionError "No execution result")
  | some r =>
    if r.timed_out then
      .error (.jobError "Job container timed out during execution" .TIMEOUT none)
    else if r.return_code ≠ 0 then
      .error (.jobError
        ("Job container exited with non-zero exit code: " ++ toString r.return_code)
        .NONZERO_RETURN_CODE none)
    else
      .ok ()

instance {ε α : Type} [DecidableEq ε] [DecidableEq α] : DecidableEq (Except ε α) := fun x y =>
  match x, y with
  | .ok a, .ok b =>
    if h : a = b then .isTrue (by rw [h]) else .isFalse (fun c => by cases c; exact h rfl)
  | .error a, .error b =>
    if h : a = b then .isTrue (by rw [h]) else .isFalse (fun c => by cases c; exact h rfl)
  | .ok _, .error _ => .isFalse (fun c => Except.noConfusion c)
  | .error _, .ok _ => .isFalse (fun c => Except.noConfusion c)

/-- Everything the driver makes observable, in order: deadline-timer calls,
stage transitions, outbound wire messages, the runner cleanup call, and the
log line for a swallowed cleanup exception. -/
inductive Event where
  | setDeadline (seconds : Rat) (reason : String)
  | extendDeadline (seconds : Rat) (reason : String)
  | enterStage (stage : JobStage)
  | captureSpecs
  | sendExecutorReady
  | generateCert (executor_ip : String) (public_key : String)
  | sendStreamingJobReady (certificate : String)
  | sendVolumesReady
  | sendExecutionDone
  | sendJobFinished (result : JobResult)
  | sendJobFailed (msg : V0JobFailedRequest)
  | sendHordeFailed (msg : V0HordeFailedRequest)
  | runnerClean
  | logCleanupError (message : String)
deriving DecidableEq, Repr

/-- The terminal outbound messages: exactly the three wire messages that can
close a run (`V0JobFinishedRequest`, `V0JobFailedRequest`, `V0HordeFailedRequest`). -/
def Event.isTerminal : Event → Bool
  | .sendJobFinished _ => true
  | .sendJobFailed _ => true
  | .sendHordeFailed _ => true
  | _ => false

/-- Is this event the `generate_streaming_certificate` call? -/
def Event.isGenerateCert : Event → Bool
  | .generateCert _ _ => true
  | _ => false

/-- Is this event a `set_timeout` call on the deadline timer? -/
def Event.isSetDeadline : Event → Bool
  | .setDeadline _ _ => true
  | _ => false

/-- Is this event an `extend_timeout` call on the deadline timer? -/
def Event.isExtendDeadline : Event → Bool
  | .extendDeadline _ _ => true
  | _ => false

/-- Is this event a deadline-timer call of either kind? -/
def Event.isDeadlineEvt (e : Event) : Bool := e.isSetDeadline || e.isExtendDeadline

/-- Events belonging to the cleanup epilogue of `execute`. -/
def Event.isCleanupEvt : Event → Bool
  | .runnerClean => true
  | .logCleanupError _ => true
  | _ => false

/-- Events that may be produced by `_execute` itself (neither terminal wire
messages nor cleanup). -/
def Event.isBodyEvt (e : Event) : Bool := !e.isTerminal && !e.isCleanupEvt

/-- The driver's mutable attributes (`self.current_stage`, `self.specs`, and
the runner's `execution_result` attribute as the driver observes it). -/
structure DState where
  current_stage : JobStage
  specs : Option MachineSpecs
  execution_result : Option ExecutionResult
deriving DecidableEq, Repr

/-- The driver interpreter: a state transformer producing the emitted events
and either a value or a propagating Python exception. -/
def DriverM (α : Type) : Type := DState → DState × List Event × Except PyError α

/-- Monadic return for `DriverM`. -/
def DriverM.pureM {α : Type} (a : α) : DriverM α := fun s => (s, [], .ok a)

/-- Monadic sequencing for `DriverM`: an exception short-circuits, events
concatenate. -/
def DriverM.bindM {α β : Type} (x : DriverM α) (f : α → DriverM β) : DriverM β := fun s =>
  match x s with
  | (s1, evs, .ok a) =>
    match f a s1 with
    | (s2, evs2, r) => (s2, evs ++ evs2, r)
  | (s1, evs, .error e) => (s1, evs, .error e)

instance : Monad DriverM where
  pure := DriverM.pureM
  bind := DriverM.bindM

/-- Emit one observable event. -/
def emitEvt (e : Event) : DriverM Unit := fun s => (s, [e], .ok ())

/-- Raise a Python exception. -/
def raiseErr {α : Type} (e : PyError) : DriverM α := fun s => (s, [], .error e)

/-- The outcome of one `await` on an external collaborator: a value, a
deadline expiry (`TimeoutError`), or a raised exception. -/
inductive AwaitOutcome (α : Type) where
  | ok (a : α)
  | timeout
  | raise (e : PyError)
deriving DecidableEq, Repr

/-- Suspend on an external operation with the given oracle outcome. -/
def awaitOp {α : Type} (o : AwaitOutcome α) : DriverM α := fun s =>
  match o with
  | .ok a => (s, [], .ok a)
  | .timeout => (s, [], .error .timeoutError)
  | .raise e => (s, [], .error e)

/-- Run a pure computation that may raise. -/
def liftExc {α : Type} (r : Except PyError α) : DriverM α := fun s => (s, [], r)

/-- Read the driver state. -/
def getDState : DriverM DState := fun s => (s, [], .ok s)

/-- The `self.current_stage = stage`. -/
def setStage (stage : JobStage) : DriverM Unit := fun s =>
  ({ s with current_stage := stage }, [], .ok ())

/-- The `self.specs = ...`. -/
def setSpecs (sp : MachineSpecs) : DriverM Unit := fun s =>
  ({ s with specs := some sp }, [], .ok ())

/-- The runner populates `execution_result` when the `start_job` scope exits. -/
def setExecResult (er : Option ExecutionResult) : DriverM Unit := fun s =>
  ({ s with execution_result := er }, [], .ok ())

/-- The `try: ... except TimeoutError: raise e2` — the shape of every
`asyncio.timeout` / `asyncio.wait_for` wrapper in `_execute`. -/
def catchTimeoutWith {α : Type} (x : DriverM α) (e2 : PyError) : DriverM α := fun s =>
  match x s with
  | (s1, evs, .error .timeoutError) => (s1, evs, .error e2)
  | r => r

/-- The oracle for one driver run: settings, the job request, and the outcome
of every external suspension the driver performs, in source order. -/
structure Env where
  job_uuid : String
  startup_time_limit : Rat
  debug_no_gpu_mode : Bool
  machine_specs_outcome : AwaitOutcome MachineSpecs
  cve_probe : AwaitOutcome (Int × String × String)
  nvidia_probe : AwaitOutcome (Int × String × String)
  initial_msg_outcome : AwaitOutcome V0InitialJobRequest
  prepare_initial_outcome : AwaitOutcome Unit
  is_streaming_job : Bool
  full_payload_outcome : AwaitOutcome Unit
  prepare_full_outcome : AwaitOutcome Unit
  download_volume_outcome : AwaitOutcome Unit
  start_job_enter_outcome : AwaitOutcome Unit
  executor_certificate : Option String
  start_job_exit_outcome : AwaitOutcome Unit
  execution_result : Option ExecutionResult
  upload_results_outcome : AwaitOutcome JobResult
  clean_raises : Option String

namespace JobDriver

/-- The `JobDriver._set_deadline` (job_driver.py lines 134-136). -/
def _set_deadline (seconds : Rat) (reason : String) : DriverM Unit :=
  emitEvt (.setDeadline seconds reason)

/-- The `JobDriver._extend_deadline` (job_driver.py lines 138-142). -/
def _extend_deadline (seconds : Rat) (reason : String) : DriverM Unit :=
  emitEvt (.extendDeadline seconds reason)

/-- The `JobDriver._enter_stage` (job_driver.py lines 144-148). -/
def _enter_stage (stage : JobStage) : DriverM Unit := do
  setStage stage
  emitEvt (.enterStage stage)

/-- The `JobDriver.run_security_checks_or_fail` (job_driver.py lines 192-195):
the CVE probe always runs; the NVIDIA toolkit probe only when
`DEBUG_NO_GPU_MODE` is off. -/
def run_security_checks_or_fail (env : Env) : DriverM Unit := do
  let probe ← awaitOp env.cve_probe
  liftExc (run_cve_2022_0492_check_or_fail probe.1 probe.2.1 probe.2.2)
  if env.debug_no_gpu_mode then
    pure ()
  else do
    let probe2 ← awaitOp env.nvidia_probe
    liftExc (run_nvidia_toolkit_version_check_or_fail probe2.1 probe2.2.1 probe2.2.2)

/-- The `JobDriver._startup_stage` (job_driver.py lines 150-164). -/
def _startup_stage (env : Env) : DriverM V0InitialJobRequest := do
  _enter_stage .EXECUTOR_STARTUP
  (if env.debug_no_gpu_mode then pure () else do
    let sp ← awaitOp env.machine_specs_outcome
    setSpecs sp
    emitEvt .captureSpecs)
  run_security_checks_or_fail env
  let initial_job_request ← awaitOp env.initial_msg_outcome
  let _ ← awaitOp env.prepare_initial_outcome
  emitEvt .sendExecutorReady
  (match initial_job_request.streaming_details with
   | none => pure ()
   | some sd =>
     match sd.executor_ip with
     | none => raiseErr (.assertionError "")
     | some ip => emitEvt (.generateCert ip sd.public_key))
  pure initial_job_request

/-- The `JobDriver._download_stage` (job_driver.py lines 166-173). -/
def _download_stage (env : Env) : DriverM Unit := do
  _enter_stage .VOLUME_DOWNLOAD
  let _ ← awaitOp env.full_payload_outcome
  let _ ← awaitOp env.prepare_full_outcome
  let _ ← awaitOp env.download_volume_outcome
  emitEvt .sendVolumesReady

/-- The body of `async with self.runner.start_job():` — when streaming, the
executor certificate is asserted present and `streaming_job_ready` is sent.
A body exception is captured so the scope exit still runs before it
propagates. -/
def _start_job_scope_body (env : Env) : DriverM (Option PyError) := do
  if env.is_streaming_job then
    match env.executor_certificate with
    | none => pure (some (.assertionError "Executor certificate is missing."))
    | some cert => do
      emitEvt (.sendStreamingJobReady cert)
      pure none
  else
    pure none

/-- The `JobDriver._execution_stage` (job_driver.py lines 175-184): enter the
`start_job` scope, run its body, exit the scope (the runner populates
`execution_result` on a clean exit), re-raise a body exception, then inspect
the execution result and send `execution_done`. -/
def _execution_stage (env : Env) : DriverM Unit := do
  _enter_stage .EXECUTION
  let _ ← awaitOp env.start_job_enter_outcome
  let bodyErr ← _start_job_scope_body env
  let _ ← awaitOp env.start_job_exit_outcome
  setExecResult env.execution_result
  match bodyErr with
  | some e => raiseErr e
  | none => do
    let st ← getDState
    liftExc (fail_if_execution_unsuccessful st.execution_result)
    emitEvt .sendExecutionDone

/-- The `JobDriver._upload_stage` (job_driver.py lines 186-190): upload results,
stamp `job_result.specs` with the startup-captured machine specs, send the
result (`V0JobFinishedRequest` on the wire). -/
def _upload_stage (env : Env) : DriverM Unit := do
  _enter_stage .RESULT_UPLOAD
  let job_result ← awaitOp env.upload_results_outcome
  let st ← getDState
  emitEvt (.sendJobFinished { job_result with specs := st.specs })

/-- The `JobDriver._execute` (job_driver.py lines 82-132). -/
def _execute (env : Env) : DriverM Unit := do
  _set_deadline env.startup_time_limit "startup time limit"
  let initial_job_request ← catchTimeoutWith (_startup_stage env)
    (.hordeError "Timed out waiting for initial job details from miner" .GENERIC_ERROR none)
  let timing_details := initial_job_request.executor_timing
  (match timing_details with
   | some td => _set_deadline td.allowed_leeway "allowed leeway"
   | none =>
     match initial_job_request.timeout_seconds with
     | some t => _set_deadline t "single-timeout mode"
     | none =>
       raiseErr (.hordeError
         "No timing received: either timeout_seconds or timing_details must be set"
         .GENERIC_ERROR none))
  (match timing_details with
   | some td => _extend_deadline td.download_time_limit "download time limit"
   | none => pure ())
  catchTimeoutWith (_download_stage env) (.jobError "Download time exceeded" .TIMEOUT none)
  (match timing_details with
   | some td => do
     _extend_deadline td.execution_time_limit "execution time limit"
     if env.is_streaming_job then
       _extend_deadline td.streaming_start_time_limit "streaming start time limit"
     else
       pure ()
   | none => pure ())
  catchTimeoutWith (_execution_stage env) (.jobError "Execution time exceeded" .TIMEOUT none)
  (match timing_details with
   | some td => _extend_deadline td.upload_time_limit "upload time limit"
   | none => pure ())
  catchTimeoutWith (_upload_stage env) (.jobError "Upload time exceeded" .TIMEOUT none)

/-- The `JobDriver.send_job_failed` (job_driver.py lines 299-319) as a pure
message constructor: the current stage and, when the runner has an
`execution_result`, its return code and streams, are attached. -/
def send_job_failed (env : Env) (st : DState) (message : String) (reason : JobFailureReason)
    (context : Option Ctx) : V0JobFailedRequest :=
  { job_uuid := env.job_uuid
    stage := st.current_stage
    reason := reason
    message := message
    docker_process_exit_status := st.execution_result.map (·.return_code)
    docker_process_stdout := st.execution_result.map (·.stdout)
    docker_process_stderr := st.execution_result.map (·.stderr)
    context := context }

/-- The `JobDriver.send_horde_failed` (job_driver.py lines 321-332) as a pure
message constructor: the executor reports itself as the source. -/
def send_horde_failed (env : Env) (d : HordeErrorData) : V0HordeFailedRequest :=
  { job_uuid := env.job_uuid
    reported_by := .EXECUTOR
    reason := d.reason
    message := d.message
    context := d.context }

/-- The `JobDriver.execute` (job_driver.py lines 60-80): run `_execute`; on
`JobError` send `V0JobFailedRequest`; on any other exception wrap it as a
`HordeError`, add `{stage: current_stage}` to its context and send
`V0HordeFailedRequest`; finally call `runner.clean()`, logging and swallowing
any exception it raises. -/
def execute (env : Env) : DriverM Unit := fun s =>
  let body := _execute env s
  let s1 := body.1
  let evs1 :=
    match body.2.2 with
    | .ok _ => body.2.1
    | .error (.jobError m reason c) =>
      body.2.1 ++ [Event.sendJobFailed (send_job_failed env s1 m reason c)]
    | .error e =>
      let w := (HordeError.wrap_unhandled e).add_context ("stage", .stage s1.current_stage)
      body.2.1 ++ [Event.sendHordeFailed (send_horde_failed env w)]
  match env.clean_raises with
  | some m => (s1, evs1 ++ [Event.runnerClean, Event.logCleanupError m], .ok ())
  | none => (s1, evs1 ++ [Event.runnerClean], .ok ())

end JobDriver

/-- The driver state at construction time (`current_stage = UNKNOWN`, no specs,
no execution result). -/
def initDState : DState :=
  { current_stage := .UNKNOWN, specs := none, execution_result := none }

/-- The run of the startup stage from the initial state — exactly the run
`_execute` performs, since `_set_deadline` does not change `DState`. -/
def startupRun (env : Env) : DState × List Event × Except PyError V0InitialJobRequest :=
  JobDriver._startup_stage env initDState

/-- The run of the download stage from the post-startup state. -/
def downloadRun (env : Env) : DState × List Event × Except PyError Unit :=
  JobDriver._download_stage env (startupRun env).1

/-- The run of the execution stage from the post-download state. -/
def executionRun (env : Env) : DState × List Event × Except PyError Unit :=
  JobDriver._execution_stage env (downloadRun env).1

/-- The run of the upload stage from the post-execution state. -/
def uploadRun (env : Env) : DState × List Event × Except PyError Unit :=
  JobDriver._upload_stage env (executionRun env).1

/-- A full run of `_execute` (the `try` body of `execute`). -/
def execRun (env : Env) : DState × List Event × Except PyError Unit :=
  JobDriver._execute env initDState

/-- A full driver run: `execute` from the initial state. -/
def fullRun (env : Env) : DState × List Event × Except PyError Unit :=
  JobDriver.execute env initDState

/-- The terminal failure message `execute` appends for a given body outcome
(empty when the body succeeded): the `except JobError` clause sends
`V0JobFailedRequest`, the `except Exception` clause wraps and sends
`V0HordeFailedRequest`. -/
def failureEvents (env : Env) (s1 : DState) : Except PyError Unit → List Event
  | .ok _ => []
  | .error (.jobError m reason c) =>
    [Event.sendJobFailed (JobDriver.send_job_failed env s1 m reason c)]
  | .error e =>
    [Event.sendHordeFailed (JobDriver.send_horde_failed env
      ((HordeError.wrap_unhandled e).add_context ("stage", .stage s1.current_stage)))]

/-- The cleanup epilogue of `execute`: `runner.clean()` and, when it raises,
the swallowed-error log line. -/
def cleanupEvents (env : Env) : List Event :=
  match env.clean_raises with
  | some m => [Event.runnerClean, Event.logCleanupError m]
  | none => [Event.runnerClean]

/-- The events of a run. -/
def eventsOf {α : Type} (t : DState × List Event × Except PyError α) : List Event := t.2.1

/-- The result of a run. -/
def resultOf {α : Type} (t : DState × List Event × Except PyError α) : Except PyError α := t.2.2

/-- A horde failure with reason `SECURITY_CHECK_FAILED`. -/
def isSecFail (r : Except PyError Unit) : Prop :=
  ∃ m c, r = .error (.hordeError m .SECURITY_CHECK_FAILED c)

/-- A successful execution result (exit code 0, not timed out). -/
def erOkSample : ExecutionResult :=
  { return_code := 0, stdout := "out", stderr := "", timed_out := false }

/-- A runner-produced job result before the driver stamps the specs. -/
def jrSample : JobResult := { data := "result", specs := none }

/-- An initial request using single-timeout mode. -/
def reqTimeoutOnly : V0InitialJobRequest :=
  { executor_timing := none, timeout_seconds := some 10, streaming_details := none }

/-- A per-stage timing budget. -/
def tdSample : TimingDetails :=
  { allowed_leeway := 3, download_time_limit := 4, execution_time_limit := 5,
    streaming_start_time_limit := 6, upload_time_limit := 7 }

/-- An initial request carrying both timing details and a timeout (timing wins). -/
def reqTiming : V0InitialJobRequest :=
  { executor_timing := some tdSample, timeout_seconds := some 10, streaming_details := none }

/-- Streaming details with the executor IP supplied. -/
def sdSample : StreamingDetails := { executor_ip := some "127.0.0.1", public_key := "PK" }

/-- An initial request for a streaming job. -/
def reqStreaming : V0InitialJobRequest :=
  { executor_timing := none, timeout_seconds := some 10, streaming_details := some sdSample }

/-- A passing CVE-2022-0492 probe outcome. -/
def cveOkProbe : AwaitOutcome (Int × String × String) :=
  .ok (0, CVE_2022_0492_EXPECTED_OUTPUT, "")

/-- A fully successful driver run in single-timeout mode with GPU debug mode
on (machine specs and the NVIDIA probe are skipped). -/
def envHappy : Env :=
  { job_uuid := "uuid"
    startup_time_limit := 5
    debug_no_gpu_mode := true
    machine_specs_outcome := .ok { raw := "specs" }
    cve_probe := cveOkProbe
    nvidia_probe := .ok (0, "NVIDIA Container Toolkit CLI version 1.17.8", "")
    initial_msg_outcome := .ok reqTimeoutOnly
    prepare_initial_outcome := .ok ()
    is_streaming_job := false
    full_payload_outcome := .ok ()
    prepare_full_outcome := .ok ()
    download_volume_outcome := .ok ()
    start_job_enter_outcome := .ok ()
    executor_certificate := none
    start_job_exit_outcome := .ok ()
    execution_result := some erOkSample
    upload_results_outcome := .ok jrSample
    clean_raises := none }

/-- The timing dispatch after startup succeeds: at least one of
`executor_timing` and `timeout_seconds` was supplied. -/
def timingOk (req : V0InitialJobRequest) : Prop :=
  req.executor_timing ≠ none ∨ req.timeout_seconds ≠ none

/-- The `m` only emits events satisfying `p`. -/
def EmitsOnly {α : Type} (p : Event → Bool) (m : DriverM α) : Prop :=
  ∀ s, ((m s).2.1).all p = true

/-- The trace discipline of `_execute`: on success the emitted events are
body events followed by exactly one `sendJobFinished`; on failure they are
body events only (no terminal message, no cleanup). -/
def TraceOk (m : DriverM Unit) : Prop :=
  ∀ s,
    match (m s).2.2 with
    | .ok _ => ∃ d jr, (m s).2.1 = d ++ [Event.sendJobFinished jr] ∧ d.all Event.isBodyEvt = true
    | .error _ => ((m s).2.1).all Event.isBodyEvt = true

/-- Unfolding lemma for `DriverM` sequencing. -/
theorem run_bind {α β : Type} (x : DriverM α) (f : α → DriverM β) (s : DState) :
    (x >>= f) s =
      match x s with
      | (s1, evs, .ok a) => ((f a s1).1, evs ++ (f a s1).2.1, (f a s1).2.2)
      | (s1, evs, .error e) => (s1, evs, .error e) := by
  show DriverM.bindM x f s = _
  unfold DriverM.bindM
  rcases hx : x s with ⟨s1, evs, r⟩
  cases r with
  | ok a =>
    rcases hf : f a s1 with ⟨s2, evs2, r2⟩
    simp [hf]
  | error e => rfl

/-- Unfolding lemma for `DriverM` return. -/
theorem run_pure {α : Type} (a : α) (s : DState) :
    (pure a : DriverM α) s = (s, [], .ok a) := rfl

/-- Unfolding lemma for `emitEvt`. -/
theorem run_emit (e : Event) (s : DState) : emitEvt e s = (s, [e], .ok ()) := rfl

/-- Unfolding lemma for `raiseErr`. -/
theorem run_raise {α : Type} (e : PyError) (s : DState) :
    (raiseErr e : DriverM α) s = (s, [], .error e) := rfl

/-- Unfolding lemma for `awaitOp`. -/
theorem run_await {α : Type} (o : AwaitOutcome α) (s : DState) :
    awaitOp o s =
      match o with
      | .ok a => (s, [], .ok a)
      | .timeout => (s, [], .error .timeoutError)
      | .raise e => (s, [], .error e) := rfl

/-- Unfolding lemma for `liftExc`. -/
theorem run_liftExc {α : Type} (r : Except PyError α) (s : DState) :
    liftExc r s = (s, [], r) := rfl

/-- Unfolding lemma for `getDState`. -/
theorem run_getDState (s : DState) : getDState s = (s, [], .ok s) := rfl

/-- Unfolding lemma for `setStage`. -/
theorem run_setStage (st : JobStage) (s : DState) :
    setStage st s = ({ s with current_stage := st }, [], .ok ()) := rfl

/-- Unfolding lemma for `setSpecs`. -/
theorem run_setSpecs (sp : MachineSpecs) (s : DState) :
    setSpecs sp s = ({ s with specs := some sp }, [], .ok ()) := rfl

/-- Unfolding lemma for `setExecResult`. -/
theorem run_setExecResult (er : Option ExecutionResult) (s : DState) :
    setExecResult er s = ({ s with execution_result := er }, [], .ok ()) := rfl

/-- Unfolding lemma for `catchTimeoutWith`. -/
theorem run_catch {α : Type} (x : DriverM α) (e2 : PyError) (s : DState) :
    catchTimeoutWith x e2 s =
      match x s with
      | (s1, evs, .error .timeoutError) => (s1, evs, .error e2)
      | r => r := rfl

/-- Sequencing preserves `EmitsOnly`. -/
theorem emitsOnly_bind {α β : Type} {p : Event → Bool} {x : DriverM α} {f : α → DriverM β}
    (hx : EmitsOnly p x) (hf : ∀ a, EmitsOnly p (f a)) : EmitsOnly p (x >>= f) := by
  intro s
  rw [run_bind]
  rcases hx2 : x s with ⟨s1, evs, r⟩
  have h1 := hx s
  rw [hx2] at h1
  cases r with
  | ok a =>
    have h2 := hf a s1
    simp only [List.all_append]
    simp only at h1
    simp [h1, h2]
  | error e => simpa using h1

/-- The `pure` emits nothing. -/
theorem emitsOnly_pure {α : Type} {p : Event → Bool} (a : α) :
    EmitsOnly p (pure a : DriverM α) := by
  intro s; simp [run_pure]

/-- A single allowed event. -/
theorem emitsOnly_emit {p : Event → Bool} {e : Event} (he : p e = true) :
    EmitsOnly p (emitEvt e) := by
  intro s; simp [run_emit, he]

/-- The `raiseErr` emits nothing. -/
theorem emitsOnly_raise {α : Type} {p : Event → Bool} (e : PyError) :
    EmitsOnly p (raiseErr e : DriverM α) := by
  intro s; simp [run_raise]

/-- The `awaitOp` emits nothing. -/
theorem emitsOnly_await {α : Type} {p : Event → Bool} (o : AwaitOutcome α) :
    EmitsOnly p (awaitOp o) := by
  intro s; cases o <;> simp [run_await]

/-- The `liftExc` emits nothing. -/
theorem emitsOnly_liftExc {α : Type} {p : Event → Bool} (r : Except PyError α) :
    EmitsOnly p (liftExc r) := by
  intro s; simp [run_liftExc]

/-- The `getDState` emits nothing. -/
theorem emitsOnly_getDState {p : Event → Bool} : EmitsOnly p getDState := by
  intro s; simp [run_getDState]

/-- The `setStage` emits nothing. -/
theorem emitsOnly_setStage {p : Event → Bool} (st : JobStage) : EmitsOnly p (setStage st) := by
  intro s; simp [run_setStage]

/-- The `setSpecs` emits nothing. -/
theorem emitsOnly_setSpecs {p : Event → Bool} (sp : MachineSpecs) : EmitsOnly p (setSpecs sp) := by
  intro s; simp [run_setSpecs]

/-- The `setExecResult` emits nothing. -/
theorem emitsOnly_setExecResult {p : Event → Bool} (er : Option ExecutionResult) :
    EmitsOnly p (setExecResult er) := by
  intro s; simp [run_setExecResult]

/-- The timeout-translating wrapper preserves `EmitsOnly`. -/
theorem emitsOnly_catch {α : Type} {p : Event → Bool} {x : DriverM α} (e2 : PyError)
    (hx : EmitsOnly p x) : EmitsOnly p (catchTimeoutWith x e2) := by
  intro s
  rw [run_catch]
  have h1 := hx s
  rcases hx2 : x s with ⟨s1, evs, r⟩
  rw [hx2] at h1
  cases r with
  | ok a => simpa using h1
  | error e => cases e <;> simpa using h1

/-- Branching preserves `EmitsOnly`. -/
theorem emitsOnly_ite {α : Type} {p : Event → Bool} {c : Prop} [Decidable c] {x y : DriverM α}
    (hx : EmitsOnly p x) (hy : EmitsOnly p y) : EmitsOnly p (if c then x else y) := by
  by_cases h : c <;> simp [h] <;> assumption

/-- The `_enter_stage` emits one allowed event. -/
theorem emitsOnly_enter {p : Event → Bool} (st : JobStage) (h : p (.enterStage st) = true) :
    EmitsOnly p (JobDriver._enter_stage st) := by
  unfold JobDriver._enter_stage
  exact emitsOnly_bind (emitsOnly_setStage st) fun _ => emitsOnly_emit h

/-- The security checks emit no events at all. -/
theorem emitsOnly_security {p : Event → Bool} (env : Env) :
    EmitsOnly p (JobDriver.run_security_checks_or_fail env) := by
  unfold JobDriver.run_security_checks_or_fail
  refine emitsOnly_bind (emitsOnly_await _) fun a => ?_
  refine emitsOnly_bind (emitsOnly_liftExc _) fun _ => ?_
  refine emitsOnly_ite (emitsOnly_pure _) ?_
  exact emitsOnly_bind (emitsOnly_await _) fun b => emitsOnly_liftExc _

/-- Every event of the startup stage satisfies `p`, provided `p` accepts the
events startup can emit. -/
theorem startup_emitsOnly (env : Env) {p : Event → Bool}
    (h1 : p (.enterStage .EXECUTOR_STARTUP) = true)
    (h2 : p .captureSpecs = true)
    (h3 : p .sendExecutorReady = true)
    (h4 : ∀ ip pk, p (.generateCert ip pk) = true) :
    EmitsOnly p (JobDriver._startup_stage env) := by
  unfold JobDriver._startup_stage
  refine emitsOnly_bind (emitsOnly_enter _ h1) fun _ => ?_
  refine emitsOnly_bind (emitsOnly_ite (emitsOnly_pure _) ?_) fun _ => ?_
  · refine emitsOnly_bind (emitsOnly_await _) fun sp => ?_
    exact emitsOnly_bind (emitsOnly_setSpecs sp) fun _ => emitsOnly_emit h2
  refine emitsOnly_bind (emitsOnly_security env) fun _ => ?_
  refine emitsOnly_bind (emitsOnly_await _) fun req => ?_
  refine emitsOnly_bind (emitsOnly_await _) fun _ => ?_
  refine emitsOnly_bind (emitsOnly_emit h3) fun _ => ?_
  refine emitsOnly_bind ?_ fun _ => emitsOnly_pure _
  rcases req.streaming_details with _ | sd
  · exact emitsOnly_pure _
  · dsimp only
    rcases hip : sd.executor_ip with _ | ip
    · exact emitsOnly_raise _
    · exact emitsOnly_emit (h4 ip sd.public_key)

/-- The startup stage emits only body events. -/
theorem startup_bodyEvents (env : Env) :
    EmitsOnly Event.isBodyEvt (JobDriver._startup_stage env) :=
  startup_emitsOnly env rfl rfl rfl fun _ _ => rfl

/-- The startup stage emits no deadline-timer calls. -/
theorem startup_noDeadline (env : Env) :
    EmitsOnly (fun e => !Event.isDeadlineEvt e) (JobDriver._startup_stage env) :=
  startup_emitsOnly env rfl rfl rfl fun _ _ => rfl

/-- Every event of the download stage satisfies `p`, provided `p` accepts the
events download can emit. -/
theorem download_emitsOnly (env : Env) {p : Event → Bool}
    (h1 : p (.enterStage .VOLUME_DOWNLOAD) = true)
    (h2 : p .sendVolumesReady = true) :
    EmitsOnly p (JobDriver._download_stage env) := by
  unfold JobDriver._download_stage
  refine emitsOnly_bind (emitsOnly_enter _ h1) fun _ => ?_
  refine emitsOnly_bind (emitsOnly_await _) fun _ => ?_
  refine emitsOnly_bind (emitsOnly_await _) fun _ => ?_
  exact emitsOnly_bind (emitsOnly_await _) fun _ => emitsOnly_emit h2

/-- The download stage emits only body events. -/
theorem download_bodyEvents (env : Env) :
    EmitsOnly Event.isBodyEvt (JobDriver._download_stage env) :=
  download_emitsOnly env rfl rfl

/-- The download stage emits no deadline-timer calls. -/
theorem download_noDeadline (env : Env) :
    EmitsOnly (fun e => !Event.isDeadlineEvt e) (JobDriver._download_stage env) :=
  download_emitsOnly env rfl rfl

/-- Every event of the execution stage satisfies `p`, provided `p` accepts the
events execution can emit. -/
theorem execution_emitsOnly (env : Env) {p : Event → Bool}
    (h1 : p (.enterStage .EXECUTION) = true)
    (h2 : ∀ cert, p (.sendStreamingJobReady cert) = true)
    (h3 : p .sendExecutionDone = true) :
    EmitsOnly p (JobDriver._execution_stage env) := by
  unfold JobDriver._execution_stage JobDriver._start_job_scope_body
  refine emitsOnly_bind (emitsOnly_enter _ h1) fun _ => ?_
  refine emitsOnly_bind (emitsOnly_await _) fun _ => ?_
  refine emitsOnly_bind ?_ fun bodyErr => ?_
  · refine emitsOnly_ite ?_ (emitsOnly_pure _)
    rcases env.executor_certificate with _ | cert
    · exact emitsOnly_pure _
    · exact emitsOnly_bind (emitsOnly_emit (h2 cert)) fun _ => emitsOnly_pure _
  refine emitsOnly_bind (emitsOnly_await _) fun _ => ?_
  refine emitsOnly_bind (emitsOnly_setExecResult _) fun _ => ?_
  rcases bodyErr with _ | e
  · refine emitsOnly_bind emitsOnly_getDState fun st => ?_
    exact emitsOnly_bind (emitsOnly_liftExc _) fun _ => emitsOnly_emit h3
  · exact emitsOnly_raise _

/-- The execution stage emits only body events. -/
theorem execution_bodyEvents (env : Env) :
    EmitsOnly Event.isBodyEvt (JobDriver._execution_stage env) :=
  execution_emitsOnly env rfl (fun _ => rfl) rfl

/-- The execution stage emits no deadline-timer calls. -/
theorem execution_noDeadline (env : Env) :
    EmitsOnly (fun e => !Event.isDeadlineEvt e) (JobDriver._execution_stage env) :=
  execution_emitsOnly env rfl (fun _ => rfl) rfl

/-- The upload stage emits no deadline-timer calls. -/
theorem upload_noDeadline (env : Env) :
    EmitsOnly (fun e => !Event.isDeadlineEvt e) (JobDriver._upload_stage env) := by
  unfold JobDriver._upload_stage
  refine emitsOnly_bind (emitsOnly_enter _ rfl) fun _ => ?_
  refine emitsOnly_bind (emitsOnly_await _) fun jr => ?_
  exact emitsOnly_bind emitsOnly_getDState fun st => emitsOnly_emit rfl

/-- Sequencing when the first step succeeds. -/
theorem run_bind_ok {α β : Type} {x : DriverM α} {f : α → DriverM β} {s s1 : DState}
    {evs : List Event} {a : α} (h : x s = (s1, evs, .ok a)) :
    (x >>= f) s = ((f a s1).1, evs ++ (f a s1).2.1, (f a s1).2.2) := by
  show DriverM.bindM x f s = _
  unfold DriverM.bindM
  rw [h]

/-- Sequencing when the first step raises. -/
theorem run_bind_error {α β : Type} {x : DriverM α} {f : α → DriverM β} {s s1 : DState}
    {evs : List Event} {e : PyError} (h : x s = (s1, evs, .error e)) :
    (x >>= f) s = (s1, evs, .error e) := by
  show DriverM.bindM x f s = _
  unfold DriverM.bindM
  rw [h]

/-- The timeout wrapper is transparent on success. -/
theorem run_catch_ok {α : Type} {x : DriverM α} {e2 : PyError} {s s1 : DState}
    {evs : List Event} {a : α} (h : x s = (s1, evs, .ok a)) :
    catchTimeoutWith x e2 s = (s1, evs, .ok a) := by
  unfold catchTimeoutWith
  rw [h]

/-- The timeout wrapper replaces a `TimeoutError` with its own exception. -/
theorem run_catch_timeout {α : Type} {x : DriverM α} {e2 : PyError} {s s1 : DState}
    {evs : List Event} (h : x s = (s1, evs, .error .timeoutError)) :
    catchTimeoutWith x e2 s = (s1, evs, .error e2) := by
  unfold catchTimeoutWith
  rw [h]

/-- The timeout wrapper is transparent on any other exception. -/
theorem run_catch_err {α : Type} {x : DriverM α} {e2 : PyError} {s s1 : DState}
    {evs : List Event} {e : PyError} (h : x s = (s1, evs, .error e))
    (he : e ≠ .timeoutError) : catchTimeoutWith x e2 s = (s1, evs, .error e) := by
  unfold catchTimeoutWith
  rw [h]
  cases e
  · exact absurd rfl he
  all_goals rfl

/-- Prefixing a body-only step preserves the `_execute` trace discipline. -/
theorem traceOk_seq {α : Type} {x : DriverM α} {f : α → DriverM Unit}
    (hx : EmitsOnly Event.isBodyEvt x) (hf : ∀ a, TraceOk (f a)) : TraceOk (x >>= f) := by
  intro s
  rcases hx2 : x s with ⟨s1, evs, r⟩
  have h1 := hx s
  rw [hx2] at h1
  simp only at h1
  cases r with
  | error e =>
    rw [run_bind_error hx2]
    simpa using h1
  | ok a =>
    rw [run_bind_ok hx2]
    have h2 := hf a s1
    rcases hf2 : f a s1 with ⟨s2, evs2, r2⟩
    rw [hf2] at h2
    cases r2 with
    | ok u =>
      simp only at h2 ⊢
      obtain ⟨d, jr, hd, hall⟩ := h2
      refine ⟨evs ++ d, jr, ?_, ?_⟩
      · simp [hd]
      · simp only [List.all_append]
        simp [h1, hall]
    | error e =>
      simp only at h2 ⊢
      simp only [List.all_append]
      simp [h1, h2]

/-- The timeout-translating wrapper preserves the trace discipline. -/
theorem traceOk_catch {x : DriverM Unit} (e2 : PyError) (hx : TraceOk x) :
    TraceOk (catchTimeoutWith x e2) := by
  intro s
  rw [run_catch]
  have h1 := hx s
  rcases hx2 : x s with ⟨s1, evs, r⟩
  rw [hx2] at h1
  cases r with
  | ok u => simpa using h1
  | error e => cases e <;> simpa using h1

/-- The exact behaviour of the upload stage, by cases on the upload outcome. -/
theorem upload_run (env : Env) (s : DState) :
    JobDriver._upload_stage env s =
      match env.upload_results_outcome with
      | .ok jr =>
        ({ s with current_stage := .RESULT_UPLOAD },
          [Event.enterStage .RESULT_UPLOAD, Event.sendJobFinished { jr with specs := s.specs }],
          .ok ())
      | .timeout =>
        ({ s with current_stage := .RESULT_UPLOAD }, [Event.enterStage .RESULT_UPLOAD],
          .error .timeoutError)
      | .raise e =>
        ({ s with current_stage := .RESULT_UPLOAD }, [Event.enterStage .RESULT_UPLOAD],
          .error e) := by
  unfold JobDriver._upload_stage JobDriver._enter_stage
  cases ho : env.upload_results_outcome <;>
    simp [run_bind, run_emit, run_await, run_getDState, run_setStage, ho]

/-- The upload stage obeys the trace discipline: its success emits exactly one
`sendJobFinished` at the end. -/
theorem traceOk_upload (env : Env) : TraceOk (JobDriver._upload_stage env) := by
  intro s
  rw [upload_run]
  cases ho : env.upload_results_outcome with
  | ok jr =>
    exact ⟨[Event.enterStage .RESULT_UPLOAD], _, rfl, by rfl⟩
  | timeout => exact rfl
  | raise e => exact rfl

/-- The `_execute` obeys the trace discipline: body events, with exactly one
`sendJobFinished` appended iff the run succeeds. -/
theorem traceOk_execute (env : Env) : TraceOk (JobDriver._execute env) := by
  unfold JobDriver._execute JobDriver._set_deadline JobDriver._extend_deadline
  refine traceOk_seq (emitsOnly_emit (by rfl)) fun _ => ?_
  refine traceOk_seq (emitsOnly_catch _ (startup_bodyEvents env)) fun req => ?_
  dsimp only
  refine traceOk_seq ?_ fun _ => ?_
  · rcases req.executor_timing with _ | td
    · dsimp only
      rcases req.timeout_seconds with _ | t
      · exact emitsOnly_raise _
      · exact emitsOnly_emit (by rfl)
    · exact emitsOnly_emit (by rfl)
  refine traceOk_seq ?_ fun _ => ?_
  · rcases req.executor_timing with _ | td
    · exact emitsOnly_pure _
    · exact emitsOnly_emit (by rfl)
  refine traceOk_seq (emitsOnly_catch _ (download_bodyEvents env)) fun _ => ?_
  refine traceOk_seq ?_ fun _ => ?_
  · rcases req.executor_timing with _ | td
    · exact emitsOnly_pure _
    · refine emitsOnly_bind (emitsOnly_emit (by rfl)) fun _ => ?_
      exact emitsOnly_ite (emitsOnly_emit (by rfl)) (emitsOnly_pure _)
  refine traceOk_seq (emitsOnly_catch _ (execution_bodyEvents env)) fun _ => ?_
  refine traceOk_seq ?_ fun _ => ?_
  · rcases req.executor_timing with _ | td
    · exact emitsOnly_pure _
    · exact emitsOnly_emit (by rfl)
  exact traceOk_catch _ (traceOk_upload env)

/-- A body event is not a terminal wire message. -/
theorem bodyEvt_not_terminal {e : Event} (h : Event.isBodyEvt e = true) :
    Event.isTerminal e = false := by
  cases e <;> simp_all [Event.isBodyEvt, Event.isTerminal, Event.isCleanupEvt]

/-- A body event is not a cleanup event. -/
theorem bodyEvt_not_cleanup {e : Event} (h : Event.isBodyEvt e = true) :
    Event.isCleanupEvt e = false := by
  cases e <;> simp_all [Event.isBodyEvt, Event.isTerminal, Event.isCleanupEvt]

/-- A list of body events has no terminal message. -/
theorem filter_terminal_nil {evs : List Event} (h : evs.all Event.isBodyEvt = true) :
    evs.filter Event.isTerminal = [] := by
  rw [List.filter_eq_nil_iff]
  intro a ha
  have hb := (List.all_eq_true.mp h) a ha
  simp [bodyEvt_not_terminal hb]

/-- A list of body events contains no `runnerClean`. -/
theorem countP_clean_nil {evs : List Event} (h : evs.all Event.isBodyEvt = true) :
    evs.countP (fun e => decide (e = Event.runnerClean)) = 0 := by
  rw [List.countP_eq_zero]
  intro a ha
  have hb := (List.all_eq_true.mp h) a ha
  intro hc
  rw [decide_eq_true_iff] at hc
  subst hc
  simp [Event.isBodyEvt, Event.isCleanupEvt] at hb

/-- The full event list of `execute`: the `_execute` body events, then the
terminal failure message when `_execute` raised, then the cleanup epilogue. -/
theorem execute_events (env : Env) (s : DState) :
    (JobDriver.execute env s).2.1 =
      (JobDriver._execute env s).2.1 ++
        failureEvents env (JobDriver._execute env s).1 (JobDriver._execute env s).2.2 ++
        cleanupEvents env := by
  unfold JobDriver.execute failureEvents cleanupEvents
  rcases hb : JobDriver._execute env s with ⟨s1, evs, r⟩
  cases r with
  | ok u => cases env.clean_raises <;> simp
  | error e => cases e <;> cases env.clean_raises <;> simp [List.append_assoc]

/-- The `execute` always returns normally: every exception from the body is
handled, and a cleanup exception is swallowed. -/
theorem execute_result (env : Env) (s : DState) :
    (JobDriver.execute env s).2.2 = .ok () := by
  unfold JobDriver.execute
  rcases hb : JobDriver._execute env s with ⟨s1, evs, r⟩
  cases r with
  | ok u => cases env.clean_raises <;> rfl
  | error e => cases e <;> cases env.clean_raises <;> rfl

/-- The cleanup epilogue contains no terminal message. -/
theorem cleanup_no_terminal (env : Env) :
    (cleanupEvents env).filter Event.isTerminal = [] := by
  unfold cleanupEvents
  cases env.clean_raises <;> rfl

/-- The failure message for a non-`JobError` exception. -/
theorem failureEvents_horde (env : Env) (s1 : DState) {e : PyError}
    (hj : e.isJobErr = false) :
    failureEvents env s1 (.error e) =
      [Event.sendHordeFailed (JobDriver.send_horde_failed env
        ((HordeError.wrap_unhandled e).add_context ("stage", .stage s1.current_stage)))] := by
  rcases e with _ | ⟨m, r, c⟩ | ⟨m, r, c⟩ | m | m
  · rfl
  · simp [PyError.isJobErr] at hj
  · rfl
  · rfl
  · rfl

/-- C1: for every driver run of `execute`, exactly one of `V0JobFinishedRequest`,
`V0JobFailedRequest`, `V0HordeFailedRequest` is emitted as the terminal outbound
message: a run whose `_execute` body completes all four stages emits exactly one
`sendJobFinished`, a run whose body raises a `JobError` emits exactly one
`sendJobFailed`, and a run whose body raises any other exception emits exactly
one `sendHordeFailed`; never zero and never more than one. -/
theorem c1_exactly_one_terminal_message (env : Env) :
    ((eventsOf (fullRun env)).filter Event.isTerminal).length = 1 ∧
    (∀ u, resultOf (execRun env) = .ok u →
      ∃ jr, (eventsOf (fullRun env)).filter Event.isTerminal = [Event.sendJobFinished jr]) ∧
    (∀ m r c, resultOf (execRun env) = .error (.jobError m r c) →
      ∃ msg, (eventsOf (fullRun env)).filter Event.isTerminal = [Event.sendJobFailed msg]) ∧
    (∀ e, resultOf (execRun env) = .error e → e.isJobErr = false →
      ∃ msg, (eventsOf (fullRun env)).filter Event.isTerminal = [Event.sendHordeFailed msg]) := by
  have ht := traceOk_execute env initDState
  have hev := execute_events env initDState
  have hfull : eventsOf (fullRun env) = (JobDriver.execute env initDState).2.1 := rfl
  have hres : resultOf (execRun env) = (JobDriver._execute env initDState).2.2 := rfl
  rcases hb : JobDriver._execute env initDState with ⟨s1, evs, r⟩
  rw [hb] at ht hev hres
  simp only at ht hev hres
  have hclean := cleanup_no_terminal env
  cases r with
  | ok u =>
    obtain ⟨d, jr, hd, hall⟩ := ht
    have hfil : (eventsOf (fullRun env)).filter Event.isTerminal = [Event.sendJobFinished jr] := by
      rw [hfull, hev, hd]
      simp [List.filter_append, hclean, filter_terminal_nil hall, failureEvents, Event.isTerminal]
    refine ⟨?_, ?_, ?_, ?_⟩
    · rw [hfil]; rfl
    · exact fun _ _ => ⟨jr, hfil⟩
    · intro m2 r2 c2 hc
      rw [hres] at hc
      simp at hc
    · intro e2 he2 hj
      rw [hres] at he2
      simp at he2
  | error e =>
    have hbody := filter_terminal_nil ht
    by_cases hj : e.isJobErr = true
    · rcases e with _ | ⟨m, r, c⟩ | ⟨m, r, c⟩ | m | m <;> simp [PyError.isJobErr] at hj
      have hfil : (eventsOf (fullRun env)).filter Event.isTerminal =
          [Event.sendJobFailed (JobDriver.send_job_failed env s1 m r c)] := by
        rw [hfull, hev]
        simp [List.filter_append, hclean, hbody, failureEvents, Event.isTerminal]
      refine ⟨?_, ?_, ?_, ?_⟩
      · rw [hfil]; rfl
      · intro u hu
        rw [hres] at hu
        simp at hu
      · exact fun _ _ _ _ => ⟨_, hfil⟩
      · intro e2 he2 hj2
        rw [hres] at he2
        simp only [Except.error.injEq] at he2
        subst he2
        simp [PyError.isJobErr] at hj2
    · have hj2 : e.isJobErr = false := by simpa using hj
      have hfil : (eventsOf (fullRun env)).filter Event.isTerminal =
          [Event.sendHordeFailed (JobDriver.send_horde_failed env
            ((HordeError.wrap_unhandled e).add_context ("stage", .stage s1.current_stage)))] := by
        rw [hfull, hev, failureEvents_horde env s1 hj2]
        simp [List.filter_append, hclean, hbody, Event.isTerminal]
      refine ⟨?_, ?_, ?_, ?_⟩
      · rw [hfil]; rfl
      · intro u hu
        rw [hres] at hu
        simp at hu
      · intro m2 r2 c2 hc
        rw [hres] at hc
        simp only [Except.error.injEq] at hc
        subst hc
        simp [PyError.isJobErr] at hj2
      · exact fun _ _ _ => ⟨_, hfil⟩

/-- C1 witness: a concrete fully successful run has exactly one terminal
message, the `sendJobFinished`. -/
theorem c1_terminal_witness :
    ∃ jr, (eventsOf (fullRun envHappy)).filter Event.isTerminal = [Event.sendJobFinished jr] :=
  (c1_exactly_one_terminal_message envHappy).2.1 () rfl

/-- Each body-exception failure message is a single terminal event. -/
theorem failureEvents_error_terminal (env : Env) (s1 : DState) (e : PyError) :
    ∃ t, failureEvents env s1 (.error e) = [t] ∧ Event.isTerminal t = true := by
  rcases e with _ | ⟨m, r, c⟩ | ⟨m, r, c⟩ | m | m <;> exact ⟨_, rfl, rfl⟩

/-- A terminal message is not the cleanup call. -/
theorem terminal_ne_clean {t : Event} (h : Event.isTerminal t = true) :
    t ≠ Event.runnerClean := by
  intro he
  subst he
  simp [Event.isTerminal] at h

/-- The cleanup epilogue: `runnerClean` first, then at most a log line, and
exactly one `runnerClean` in total. -/
theorem cleanupEvents_shape (env : Env) :
    ∃ post, cleanupEvents env = Event.runnerClean :: post ∧
      (∀ e ∈ post, Event.isTerminal e = false ∧ e ≠ Event.runnerClean) ∧
      (cleanupEvents env).countP (fun e => decide (e = Event.runnerClean)) = 1 := by
  unfold cleanupEvents
  cases env.clean_raises with
  | none => exact ⟨[], rfl, by simp, by rfl⟩
  | some m =>
    refine ⟨[Event.logCleanupError m], rfl, ?_, by rfl⟩
    intro e he
    simp at he
    subst he
    exact ⟨rfl, by simp⟩

/-- C10: in every run the terminal outbound message is sent strictly before
`runner.clean()` is invoked — the trace is body events, then the terminal
message, then immediately `runnerClean` (followed only by the swallowed
cleanup-error log line), with exactly one `runnerClean` overall. -/
theorem c10_terminal_before_clean (env : Env) :
    ∃ pre t post, eventsOf (fullRun env) = pre ++ t :: Event.runnerClean :: post ∧
      Event.isTerminal t = true ∧
      (∀ e ∈ pre, Event.isTerminal e = false) ∧
      (∀ e ∈ post, Event.isTerminal e = false ∧ e ≠ Event.runnerClean) ∧
      (eventsOf (fullRun env)).countP (fun e => decide (e = Event.runnerClean)) = 1 := by
  have ht := traceOk_execute env initDState
  have hev := execute_events env initDState
  have hfull : eventsOf (fullRun env) = (JobDriver.execute env initDState).2.1 := rfl
  rcases hb : JobDriver._execute env initDState with ⟨s1, evs, r⟩
  rw [hb] at ht hev
  simp only at ht hev
  obtain ⟨post, hcl, hpost, hcount1⟩ := cleanupEvents_shape env
  rw [hcl] at hcount1
  cases r with
  | ok u =>
    obtain ⟨d, jr, hd, hall⟩ := ht
    refine ⟨d, Event.sendJobFinished jr, post, ?_, rfl, ?_, hpost, ?_⟩
    · rw [hfull, hev, hd, hcl]
      simp [failureEvents]
    · intro e2 he2
      exact bodyEvt_not_terminal ((List.all_eq_true.mp hall) e2 he2)
    · rw [hfull, hev, hd, hcl]
      simp [List.countP_append, List.countP_cons, countP_clean_nil hall, hcount1, failureEvents]
  | error e =>
    obtain ⟨t, hft, htterm⟩ := failureEvents_error_terminal env s1 e
    refine ⟨evs, t, post, ?_, htterm, ?_, hpost, ?_⟩
    · rw [hfull, hev, hft, hcl]
      simp
    · intro e2 he2
      exact bodyEvt_not_terminal ((List.all_eq_true.mp ht) e2 he2)
    · rw [hfull, hev, hft, hcl]
      simp [List.countP_append, List.countP_cons, countP_clean_nil ht, hcount1,
        terminal_ne_clean htterm]

/-- The `_execute` never reads `clean_raises`: the body of the run is unchanged by
what cleanup later does. -/
theorem _execute_clean_agnostic (env : Env) (x : Option String) :
    JobDriver._execute { env with clean_raises := x } = JobDriver._execute env := rfl

/-- The `failureEvents` never reads `clean_raises`. -/
theorem failureEvents_clean_agnostic (env : Env) (x : Option String) (s1 : DState)
    (r : Except PyError Unit) :
    failureEvents { env with clean_raises := x } s1 r = failureEvents env s1 r := rfl

/-- C2: on every exit path of `execute` — success, `JobError`, or any other
exception — `runner.clean()` is invoked exactly once; `execute` always returns
normally, an exception raised by `clean()` is logged and swallowed, and the
terminal messages of the run are exactly those of the same run with a
non-raising `clean()`. -/
theorem c2_clean_exactly_once_swallowed (env : Env) :
    (eventsOf (fullRun env)).countP (fun e => decide (e = Event.runnerClean)) = 1 ∧
    resultOf (fullRun env) = .ok () ∧
    (eventsOf (fullRun env)).filter Event.isTerminal =
      (eventsOf (fullRun { env with clean_raises := none })).filter Event.isTerminal ∧
    (∀ m, env.clean_raises = some m →
      (eventsOf (fullRun env)).getLast? = some (Event.logCleanupError m)) := by
  have ht := traceOk_execute env initDState
  have hev := execute_events env initDState
  have hev2 := execute_events { env with clean_raises := none } initDState
  rw [_execute_clean_agnostic, failureEvents_clean_agnostic] at hev2
  have hfull : eventsOf (fullRun env) = (JobDriver.execute env initDState).2.1 := rfl
  have hfull2 : eventsOf (fullRun { env with clean_raises := none }) =
      (JobDriver.execute { env with clean_raises := none } initDState).2.1 := rfl
  rcases hb : JobDriver._execute env initDState with ⟨s1, evs, r⟩
  rw [hb] at ht hev hev2
  simp only at ht hev hev2
  obtain ⟨post, hcl, hpost, hcount1⟩ := cleanupEvents_shape env
  have hbodyclean : evs.countP (fun e => decide (e = Event.runnerClean)) = 0 := by
    cases r with
    | ok u =>
      obtain ⟨d, jr, hd, hall⟩ := ht
      rw [hd]
      simp [List.countP_append, List.countP_cons, countP_clean_nil hall]
    | error e => exact countP_clean_nil ht
  have hfailclean : (failureEvents env s1 r).countP (fun e => decide (e = Event.runnerClean)) = 0 := by
    cases r with
    | ok u => rfl
    | error e =>
      obtain ⟨t, hft, htterm⟩ := failureEvents_error_terminal env s1 e
      rw [hft]
      simp [List.countP_cons, terminal_ne_clean htterm]
  have hfailterm : (failureEvents env s1 r).filter Event.isTerminal = failureEvents env s1 r := by
    cases r with
    | ok u => rfl
    | error e =>
      obtain ⟨t, hft, htterm⟩ := failureEvents_error_terminal env s1 e
      rw [hft]
      simp [htterm]
  refine ⟨?_, ?_, ?_, ?_⟩
  · rw [hfull, hev]
    simp [List.countP_append, hbodyclean, hfailclean, hcount1]
  · exact execute_result env initDState
  · rw [hfull, hev, hfull2, hev2]
    have hterm1 := cleanup_no_terminal env
    have hterm2 := cleanup_no_terminal { env with clean_raises := none }
    simp [List.filter_append, hterm1, hterm2]
  · intro m hm
    rw [hfull, hev]
    unfold cleanupEvents
    rw [hm]
    simp

/-- C2 witness: in a concrete run whose cleanup raises, the run still ends
normally and the swallowed exception is logged as the last event. -/
theorem c2_clean_witness :
    (eventsOf (fullRun { envHappy with clean_raises := some "cleanup blew up" })).getLast? =
      some (Event.logCleanupError "cleanup blew up") :=
  (c2_clean_exactly_once_swallowed { envHappy with clean_raises := some "cleanup blew up" }).2.2.2
    "cleanup blew up" rfl

/-- C3: a `JobError(message, reason, context)` raised by the body is reported
as a `V0JobFailedRequest` carrying the current stage, the reason, message and
context, and the execution result's return code, stdout and stderr when
`runner.execution_result` is set (`none` fields otherwise); any other
exception is wrapped by `HordeError.wrap_unhandled`, `{stage: current_stage}`
is appended to its context, and it is reported as a `V0HordeFailedRequest`
with `reported_by = EXECUTOR`. -/
theorem c3_failure_wire_mapping (env : Env) :
    (∀ m rsn c, resultOf (execRun env) = .error (.jobError m rsn c) →
      (eventsOf (fullRun env)).filter Event.isTerminal =
        [Event.sendJobFailed
          { job_uuid := env.job_uuid
            stage := (execRun env).1.current_stage
            reason := rsn
            message := m
            docker_process_exit_status :=
              ((execRun env).1.execution_result).map (fun er => er.return_code)
            docker_process_stdout :=
              ((execRun env).1.execution_result).map (fun er => er.stdout)
            docker_process_stderr :=
              ((execRun env).1.execution_result).map (fun er => er.stderr)
            context := c }]) ∧
    (∀ e, resultOf (execRun env) = .error e → e.isJobErr = false →
      (eventsOf (fullRun env)).filter Event.isTerminal =
        [Event.sendHordeFailed
          { job_uuid := env.job_uuid
            reported_by := .EXECUTOR
            reason := (HordeError.wrap_unhandled e).reason
            message := (HordeError.wrap_unhandled e).message
            context := some ((HordeError.wrap_unhandled e).context.getD [] ++
              [("stage", .stage (execRun env).1.current_stage)]) }]) := by
  have ht := traceOk_execute env initDState
  have hev := execute_events env initDState
  have hfull : eventsOf (fullRun env) = (JobDriver.execute env initDState).2.1 := rfl
  have hexec : execRun env = JobDriver._execute env initDState := rfl
  rw [hexec]
  rcases hb : JobDriver._execute env initDState with ⟨s1, evs, r⟩
  rw [hb] at ht hev
  simp only at ht hev
  have hclean := cleanup_no_terminal env
  constructor
  · intro m rsn c hc
    simp only [resultOf] at hc
    subst hc
    have hbody := filter_terminal_nil ht
    rw [hfull, hev]
    simp [List.filter_append, hclean, hbody, failureEvents, Event.isTerminal,
      JobDriver.send_job_failed]
  · intro e he hj
    simp only [resultOf] at he
    subst he
    have hbody := filter_terminal_nil ht
    rw [hfull, hev, failureEvents_horde env s1 hj]
    simp [List.filter_append, hclean, hbody, Event.isTerminal, JobDriver.send_horde_failed,
      HordeErrorData.add_context]

/-- C3 witness: a concrete run whose volume download raises
`JobError(DOWNLOAD_FAILED)` reports a `V0JobFailedRequest` with stage
`VOLUME_DOWNLOAD` and `none` execution-result fields. -/
theorem c3_failure_witness :
    (eventsOf (fullRun { envHappy with download_volume_outcome := AwaitOutcome.raise (PyError.jobError "Volume download failed" JobFailureReason.DOWNLOAD_FAILED none) })).filter Event.isTerminal =
      [Event.sendJobFailed
        { job_uuid := "uuid"
          stage := .VOLUME_DOWNLOAD
          reason := .DOWNLOAD_FAILED
          message := "Volume download failed"
          docker_process_exit_status := none
          docker_process_stdout := none
          docker_process_stderr := none
          context := none }] :=
  (c3_failure_wire_mapping { envHappy with download_volume_outcome := AwaitOutcome.raise (PyError.jobError "Volume download failed" JobFailureReason.DOWNLOAD_FAILED none) }).1
    "Volume download failed" .DOWNLOAD_FAILED none rfl

/-- C6 counterexample: with exit code 0 and stdout missing the literal, the
check raises a `SECURITY_CHECK_FAILED` horde failure whose context holds only
`stdout` and `stderr` — there is no `return_code` entry, contradicting the
claim that every failure context carries the return code. -/
theorem c6_cve_counterexample :
    run_cve_2022_0492_check_or_fail 0 "probe finished" "boot log" ≠ .ok () ∧
    ∃ m c, run_cve_2022_0492_check_or_fail 0 "probe finished" "boot log" =
        .error (.hordeError m .SECURITY_CHECK_FAILED (some c)) ∧
      c.lookup "return_code" = none ∧
      c.map Prod.fst = ["stdout", "stderr"] := by
  refine ⟨by decide,
    "CVE-HordeFailureReason-0492 check failed: \"" ++ CVE_2022_0492_EXPECTED_OUTPUT
      ++ "\" not in stdout.",
    [("stdout", .s "probe finished"), ("stderr", .s "boot log")],
    by decide, by decide, by decide⟩

/-- C6 (amended): the CVE-2022-0492 check passes iff the probe exited 0 and its
stdout contains the literal `Contained: cannot escape via CVE-2022-0492`; a
non-zero exit raises `HordeError(SECURITY_CHECK_FAILED)` with return code,
stdout and stderr in the context, while a missing literal (with exit code 0)
raises `HordeError(SECURITY_CHECK_FAILED)` whose context carries only stdout
and stderr. -/
theorem c6_cve_check_amended (rc : Int) (out err : String) :
    (run_cve_2022_0492_check_or_fail rc out err = .ok () ↔
      (rc = 0 ∧ strContains out CVE_2022_0492_EXPECTED_OUTPUT = true)) ∧
    (rc ≠ 0 → run_cve_2022_0492_check_or_fail rc out err =
      .error (.hordeError "CVE-2022-0492 check failed" .SECURITY_CHECK_FAILED
        (some [("return_code", .i rc), ("stdout", .s out), ("stderr", .s err)]))) ∧
    (rc = 0 → strContains out CVE_2022_0492_EXPECTED_OUTPUT = false →
      run_cve_2022_0492_check_or_fail rc out err =
      .error (.hordeError
        ("CVE-HordeFailureReason-0492 check failed: \"" ++ CVE_2022_0492_EXPECTED_OUTPUT
          ++ "\" not in stdout.")
        .SECURITY_CHECK_FAILED
        (some [("stdout", .s out), ("stderr", .s err)]))) := by
  unfold run_cve_2022_0492_check_or_fail
  by_cases h : rc = 0
  · subst h
    cases hc : strContains out CVE_2022_0492_EXPECTED_OUTPUT <;> simp [hc]
  · simp [h]

/-- C6 witness: the amended theorem applied at a passing probe output. -/
theorem c6_cve_witness :
    run_cve_2022_0492_check_or_fail 0 CVE_2022_0492_EXPECTED_OUTPUT "" = .ok () :=
  (c6_cve_check_amended 0 CVE_2022_0492_EXPECTED_OUTPUT "").1.mpr ⟨rfl, by decide⟩

/-- C7: the NVIDIA Container Toolkit version check takes the first stdout line,
splits it on the last space, parses the trailing token as a version, and passes
iff the container exited 0, stdout was non-empty (with a parsable token), and
that version is at least 1.17.4; each of non-zero exit, empty stdout, and a
version below the minimum raises `HordeError(SECURITY_CHECK_FAILED)`. -/
theorem c7_nvidia_version_check (rc : Int) (out err : String) :
    (run_nvidia_toolkit_version_check_or_fail rc out err = .ok () ↔
      (rc = 0 ∧ ∃ line0 rest v, pySplitlines out = line0 :: rest ∧
        parseVersion (pyRPartitionAfter line0) = some v ∧
        versionLe NVIDIA_CONTAINER_TOOLKIT_MINIMUM_SAFE_VERSION v = true)) ∧
    (rc ≠ 0 → isSecFail (run_nvidia_toolkit_version_check_or_fail rc out err)) ∧
    (rc = 0 → pySplitlines out = [] →
      isSecFail (run_nvidia_toolkit_version_check_or_fail rc out err)) ∧
    (∀ line0 rest v, rc = 0 → pySplitlines out = line0 :: rest →
      parseVersion (pyRPartitionAfter line0) = some v →
      versionLe NVIDIA_CONTAINER_TOOLKIT_MINIMUM_SAFE_VERSION v = false →
      isSecFail (run_nvidia_toolkit_version_check_or_fail rc out err)) := by
  by_cases h : rc = 0
  · subst h
    cases hl : pySplitlines out with
    | nil =>
      have hrun : run_nvidia_toolkit_version_check_or_fail 0 out err =
          .error (.hordeError
            "nvidia-container-toolkit check failed: no output from nvidia-container-toolkit"
            .SECURITY_CHECK_FAILED
            (some [("return_code", .i 0), ("stdout", .s out), ("stderr", .s err)])) := by
        unfold run_nvidia_toolkit_version_check_or_fail
        simp [hl]
      refine ⟨?_, by simp, fun _ _ => ⟨_, _, hrun⟩, ?_⟩
      · rw [hrun]
        constructor
        · intro hc
          cases hc
        · rintro ⟨_, l0, r0, v, hl2, _, _⟩
          cases hl2
      · intro l0 r0 v _ hl2
        cases hl2
    | cons line0 rest =>
      cases hv : parseVersion (pyRPartitionAfter line0) with
      | none =>
        have hrun : run_nvidia_toolkit_version_check_or_fail 0 out err =
            .error (.otherError ("InvalidVersion: " ++ pyRPartitionAfter line0)) := by
          unfold run_nvidia_toolkit_version_check_or_fail
          simp [hl, hv]
        refine ⟨?_, by simp, ?_, ?_⟩
        · rw [hrun]
          constructor
          · intro hc
            cases hc
          · rintro ⟨_, l0, r0, v, hl2, hv2, _⟩
            injection hl2 with h1 h2
            subst h1
            rw [hv] at hv2
            cases hv2
        · intro _ hnil
          cases hnil
        · intro l0 r0 v _ hl2 hv2 _
          injection hl2 with h1 h2
          subst h1
          rw [hv] at hv2
          cases hv2
      | some v =>
        cases hle : versionLe NVIDIA_CONTAINER_TOOLKIT_MINIMUM_SAFE_VERSION v with
        | true =>
          have hrun : run_nvidia_toolkit_version_check_or_fail 0 out err = .ok () := by
            unfold run_nvidia_toolkit_version_check_or_fail
            simp [hl, hv, hle]
          refine ⟨?_, by simp, ?_, ?_⟩
          · rw [hrun]
            constructor
            · intro _
              exact ⟨rfl, line0, rest, v, rfl, hv, hle⟩
            · intro _
              rfl
          · intro _ hnil
            cases hnil
          · intro l0 r0 v2 _ hl2 hv2 hle2
            injection hl2 with h1 h2
            subst h1
            rw [hv] at hv2
            injection hv2 with h3
            subst h3
            rw [hle] at hle2
            cases hle2
        | false =>
          have hrun : run_nvidia_toolkit_version_check_or_fail 0 out err =
              .error (.hordeError
                ("Outdated NVIDIA Container Toolkit detected:" ++ pyRPartitionAfter line0
                  ++ "\" not >= 1.17.4")
                .SECURITY_CHECK_FAILED
                (some [("return_code", .i 0), ("stdout", .s out), ("stderr", .s err)])) := by
            unfold run_nvidia_toolkit_version_check_or_fail
            simp [hl, hv, hle]
          refine ⟨?_, by simp, ?_, ?_⟩
          · rw [hrun]
            constructor
            · intro hc
              cases hc
            · rintro ⟨_, l0, r0, v2, hl2, hv2, hle2⟩
              injection hl2 with h1 h2
              subst h1
              rw [hv] at hv2
              injection hv2 with h3
              subst h3
              rw [hle] at hle2
              cases hle2
          · intro _ hnil
            cases hnil
          · intro l0 r0 v2 _ hl2 hv2 hle2
            exact ⟨_, _, hrun⟩
  · have hrun : run_nvidia_toolkit_version_check_or_fail rc out err =
        .error (.hordeError
          ("nvidia-container-toolkit check failed: exit code " ++ toString rc)
          .SECURITY_CHECK_FAILED
          (some [("return_code", .i rc), ("stdout", .s out), ("stderr", .s err)])) := by
      unfold run_nvidia_toolkit_version_check_or_fail
      simp [h]
    refine ⟨?_, fun _ => ⟨_, _, hrun⟩, fun h0 => absurd h0 h, fun _ _ _ h0 => absurd h0 h⟩
    rw [hrun]
    constructor
    · intro hc
      cases hc
    · rintro ⟨h0, _⟩
      exact absurd h0 h

/-- C7 witness: the check applied at a realistic passing probe output. -/
theorem c7_nvidia_witness :
    run_nvidia_toolkit_version_check_or_fail 0
      "NVIDIA Container Toolkit CLI version 1.17.8\ncommit: abc123" "" = .ok () :=
  (c7_nvidia_version_check 0 "NVIDIA Container Toolkit CLI version 1.17.8\ncommit: abc123" "").1.mpr
    ⟨rfl, "NVIDIA Container Toolkit CLI version 1.17.8", ["commit: abc123"], [1, 17, 8],
      by decide, by decide, by decide⟩

/-- C9: `fail_if_execution_unsuccessful` classifies `timed_out` with priority
over the return code: a timed-out result raises `JobError(TIMEOUT)` even when
the return code is non-zero; `JobError(NONZERO_RETURN_CODE)` is raised only
when not timed out and the return code is non-zero; and a non-timed-out result
with return code 0 passes. -/
theorem c9_execution_result_classification (r : ExecutionResult) :
    (r.timed_out = true →
      fail_if_execution_unsuccessful (some r) =
        .error (.jobError "Job container timed out during execution" .TIMEOUT none)) ∧
    (r.timed_out = false → r.return_code ≠ 0 →
      fail_if_execution_unsuccessful (some r) =
        .error (.jobError
          ("Job container exited with non-zero exit code: " ++ toString r.return_code)
          .NONZERO_RETURN_CODE none)) ∧
    (r.timed_out = false → r.return_code = 0 →
      fail_if_execution_unsuccessful (some r) = .ok ()) := by
  unfold fail_if_execution_unsuccessful
  refine ⟨fun h => by simp [h], fun h h2 => by simp [h, h2], fun h h2 => by simp [h, h2]⟩

/-- C9 witness: a result that both timed out and exited non-zero is classified
as `TIMEOUT`, the timeout taking priority. -/
theorem c9_execution_witness :
    fail_if_execution_unsuccessful
        (some { return_code := 7, stdout := "", stderr := "", timed_out := true }) =
      .error (.jobError "Job container timed out during execution" .TIMEOUT none) :=
  (c9_execution_result_classification
    { return_code := 7, stdout := "", stderr := "", timed_out := true }).1 rfl

/-- C8: for every initial request whose `streaming_details` is present, the
startup stage asserts the coordinator supplied the executor IP (`public_key`
is required by the message type) and then calls
`runner.generate_streaming_certificate` with exactly that `executor_ip` and
`public_key`; when the executor IP is missing the assertion fires and the
stage raises instead of generating a certificate. -/
theorem c8_streaming_certificate (env : Env) (req : V0InitialJobRequest) (sd : StreamingDetails)
    (hmsg : env.initial_msg_outcome = .ok req)
    (hsd : req.streaming_details = some sd)
    (hms : env.debug_no_gpu_mode = false → ∃ sp, env.machine_specs_outcome = .ok sp)
    (hcve : ∃ rc out err, env.cve_probe = .ok (rc, out, err) ∧
      run_cve_2022_0492_check_or_fail rc out err = .ok ())
    (hnv : env.debug_no_gpu_mode = false → ∃ rc out err,
      env.nvidia_probe = .ok (rc, out, err) ∧
      run_nvidia_toolkit_version_check_or_fail rc out err = .ok ())
    (hprep : env.prepare_initial_outcome = .ok ()) :
    (∀ ip, sd.executor_ip = some ip →
      resultOf (startupRun env) = .ok req ∧
      (eventsOf (startupRun env)).filter Event.isGenerateCert =
        [Event.generateCert ip sd.public_key]) ∧
    (sd.executor_ip = none →
      resultOf (startupRun env) = .error (.assertionError "")) := by
  obtain ⟨rc, out, err, hc, hcheck⟩ := hcve
  cases hdbg : env.debug_no_gpu_mode with
  | true =>
    constructor
    · intro ip hip
      constructor <;>
        simp [startupRun, JobDriver._startup_stage, JobDriver._enter_stage,
          JobDriver.run_security_checks_or_fail, run_bind, run_await, run_liftExc, run_pure,
          run_emit, run_setStage, run_setSpecs, hdbg, hc, hcheck, hmsg, hprep, hsd, hip,
          resultOf, eventsOf, Event.isGenerateCert, run_raise]
    · intro hip
      simp [startupRun, JobDriver._startup_stage, JobDriver._enter_stage,
        JobDriver.run_security_checks_or_fail, run_bind, run_await, run_liftExc, run_pure,
        run_emit, run_setStage, run_setSpecs, hdbg, hc, hcheck, hmsg, hprep, hsd, hip,
        resultOf, eventsOf, run_raise]
  | false =>
    obtain ⟨sp, hsp⟩ := hms hdbg
    obtain ⟨rc2, out2, err2, hp2, hn2⟩ := hnv hdbg
    constructor
    · intro ip hip
      constructor <;>
        simp [startupRun, JobDriver._startup_stage, JobDriver._enter_stage,
          JobDriver.run_security_checks_or_fail, run_bind, run_await, run_liftExc, run_pure,
          run_emit, run_setStage, run_setSpecs, hdbg, hc, hcheck, hmsg, hprep, hsd, hip,
          hsp, hp2, hn2, resultOf, eventsOf, Event.isGenerateCert, run_raise]
    · intro hip
      simp [startupRun, JobDriver._startup_stage, JobDriver._enter_stage,
        JobDriver.run_security_checks_or_fail, run_bind, run_await, run_liftExc, run_pure,
        run_emit, run_setStage, run_setSpecs, hdbg, hc, hcheck, hmsg, hprep, hsd, hip,
        hsp, hp2, hn2, resultOf, eventsOf, run_raise]

/-- C8 witness: a concrete streaming run generates the certificate bound to
the supplied IP and public key. -/
theorem c8_streaming_witness :
    (eventsOf (startupRun { envHappy with initial_msg_outcome := .ok reqStreaming })).filter
        Event.isGenerateCert = [Event.generateCert "127.0.0.1" "PK"] :=
  ((c8_streaming_certificate { envHappy with initial_msg_outcome := .ok reqStreaming }
      reqStreaming sdSample rfl rfl (fun h => Bool.noConfusion h)
      ⟨0, CVE_2022_0492_EXPECTED_OUTPUT, "", rfl, by decide⟩
      (fun h => Bool.noConfusion h) rfl).1 "127.0.0.1" rfl).2

/-- The download stage only sets the stage field of the driver state. -/
theorem download_state (env : Env) (s : DState) :
    (JobDriver._download_stage env s).1 = { s with current_stage := .VOLUME_DOWNLOAD } := by
  unfold JobDriver._download_stage JobDriver._enter_stage
  cases h1 : env.full_payload_outcome <;> cases h2 : env.prepare_full_outcome <;>
    cases h3 : env.download_volume_outcome <;>
    simp [run_bind, run_await, run_emit, run_setStage, h1, h2, h3]

/-- After the execution stage the recorded stage is `EXECUTION`. -/
theorem execution_state_stage (env : Env) (s : DState) :
    ((JobDriver._execution_stage env s).1).current_stage = .EXECUTION := by
  unfold JobDriver._execution_stage JobDriver._enter_stage JobDriver._start_job_scope_body
  cases h1 : env.start_job_enter_outcome <;> cases h2 : env.is_streaming_job <;>
    rcases h3 : env.executor_certificate with _ | cert <;>
    cases h4 : env.start_job_exit_outcome <;>
    simp [run_bind, run_await, run_emit, run_setStage, run_setExecResult, run_getDState,
      run_liftExc, run_pure, run_raise, h1, h2, h3, h4] <;>
    rcases fail_if_execution_unsuccessful env.execution_result with _ | _ <;> simp

/-- After the upload stage the recorded stage is `RESULT_UPLOAD`. -/
theorem upload_state_stage (env : Env) (s : DState) :
    ((JobDriver._upload_stage env s).1).current_stage = .RESULT_UPLOAD := by
  rw [upload_run]
  cases env.upload_results_outcome <;> rfl

/-- A deadline expiry inside the startup block is re-raised as the
miner-details `HordeError`. -/
theorem execute_startup_timeout (env : Env)
    (h : resultOf (startupRun env) = .error .timeoutError) :
    resultOf (execRun env) =
      .error (.hordeError "Timed out waiting for initial job details from miner"
        .GENERIC_ERROR none) ∧
    (execRun env).1 = (startupRun env).1 := by
  simp only [startupRun, resultOf] at h
  simp only [execRun, startupRun, resultOf, JobDriver._execute, JobDriver._set_deadline,
    run_bind, run_emit, run_catch]
  rcases hh : JobDriver._startup_stage env initDState with ⟨s1, sevs, r⟩
  rw [hh] at h
  simp only at h
  subst h
  exact ⟨rfl, rfl⟩

/-- A deadline expiry inside the download stage is re-raised as
`JobError("Download time exceeded", TIMEOUT)`, with the state as the download
stage left it. -/
theorem execute_download_timeout (env : Env) (req : V0InitialJobRequest)
    (hS : resultOf (startupRun env) = .ok req)
    (ht : timingOk req)
    (hD : resultOf (downloadRun env) = .error .timeoutError) :
    resultOf (execRun env) = .error (.jobError "Download time exceeded" .TIMEOUT none) ∧
    (execRun env).1 = (downloadRun env).1 := by
  simp only [startupRun, resultOf] at hS
  simp only [downloadRun, startupRun, resultOf] at hD
  simp only [execRun, startupRun, downloadRun, resultOf, JobDriver._execute,
    JobDriver._set_deadline, JobDriver._extend_deadline, run_bind, run_emit, run_catch,
    run_pure, run_raise]
  rcases hh : JobDriver._startup_stage env initDState with ⟨s1, sevs, r⟩
  rw [hh] at hS hD
  simp only at hS hD
  subst hS
  rcases hh2 : JobDriver._download_stage env s1 with ⟨s2, devs, r2⟩
  rw [hh2] at hD
  simp only at hD
  subst hD
  rcases hreq : req.executor_timing with _ | td
  · rcases hts : req.timeout_seconds with _ | t
    · rcases ht with h | h
      · exact absurd hreq h
      · exact absurd hts h
    · simp [hreq, hts, run_emit, run_bind, run_catch, run_pure, run_raise, hh2]
  · simp [hreq, run_emit, run_bind, run_catch, run_pure, run_raise, hh2]

/-- A deadline expiry inside the execution stage is re-raised as
`JobError("Execution time exceeded", TIMEOUT)`. -/
theorem execute_execution_timeout (env : Env) (req : V0InitialJobRequest)
    (hS : resultOf (startupRun env) = .ok req)
    (ht : timingOk req)
    (hD : resultOf (downloadRun env) = .ok ())
    (hE : resultOf (executionRun env) = .error .timeoutError) :
    resultOf (execRun env) = .error (.jobError "Execution time exceeded" .TIMEOUT none) ∧
    (execRun env).1 = (executionRun env).1 := by
  simp only [startupRun, resultOf] at hS
  simp only [downloadRun, startupRun, resultOf] at hD
  simp only [executionRun, downloadRun, startupRun, resultOf] at hE
  simp only [execRun, startupRun, downloadRun, executionRun, resultOf, JobDriver._execute,
    JobDriver._set_deadline, JobDriver._extend_deadline, run_bind, run_emit, run_catch,
    run_pure, run_raise]
  rcases hh : JobDriver._startup_stage env initDState with ⟨s1, sevs, r⟩
  rw [hh] at hS hD hE
  simp only at hS hD hE
  subst hS
  rcases hh2 : JobDriver._download_stage env s1 with ⟨s2, devs, r2⟩
  rw [hh2] at hD hE
  simp only at hD hE
  subst hD
  rcases hh3 : JobDriver._execution_stage env s2 with ⟨s3, eevs, r3⟩
  rw [hh3] at hE
  simp only at hE
  subst hE
  rcases hreq : req.executor_timing with _ | td
  · rcases hts : req.timeout_seconds with _ | t
    · rcases ht with h | h
      · exact absurd hreq h
      · exact absurd hts h
    · simp [hreq, hts, run_emit, run_bind, run_catch, run_pure, run_raise, hh2, hh3]
  · cases hstream : env.is_streaming_job <;>
      simp [hreq, hstream, run_emit, run_bind, run_catch, run_pure, run_raise, hh2, hh3]

/-- A deadline expiry inside the upload stage is re-raised as
`JobError("Upload time exceeded", TIMEOUT)`. -/
theorem execute_upload_timeout (env : Env) (req : V0InitialJobRequest)
    (hS : resultOf (startupRun env) = .ok req)
    (ht : timingOk req)
    (hD : resultOf (downloadRun env) = .ok ())
    (hE : resultOf (executionRun env) = .ok ())
    (hU : resultOf (uploadRun env) = .error .timeoutError) :
    resultOf (execRun env) = .error (.jobError "Upload time exceeded" .TIMEOUT none) ∧
    (execRun env).1 = (uploadRun env).1 := by
  simp only [startupRun, resultOf] at hS
  simp only [downloadRun, startupRun, resultOf] at hD
  simp only [executionRun, downloadRun, startupRun, resultOf] at hE
  simp only [uploadRun, executionRun, downloadRun, startupRun, resultOf] at hU
  simp only [execRun, startupRun, downloadRun, executionRun, uploadRun, resultOf,
    JobDriver._execute, JobDriver._set_deadline, JobDriver._extend_deadline, run_bind,
    run_emit, run_catch, run_pure, run_raise]
  rcases hh : JobDriver._startup_stage env initDState with ⟨s1, sevs, r⟩
  rw [hh] at hS hD hE hU
  simp only at hS hD hE hU
  subst hS
  rcases hh2 : JobDriver._download_stage env s1 with ⟨s2, devs, r2⟩
  rw [hh2] at hD hE hU
  simp only at hD hE hU
  subst hD
  rcases hh3 : JobDriver._execution_stage env s2 with ⟨s3, eevs, r3⟩
  rw [hh3] at hE hU
  simp only at hE hU
  subst hE
  rcases hh4 : JobDriver._upload_stage env s3 with ⟨s4, uevs, r4⟩
  rw [hh4] at hU
  simp only at hU
  subst hU
  rcases hreq : req.executor_timing with _ | td
  · rcases hts : req.timeout_seconds with _ | t
    · rcases ht with h | h
      · exact absurd hreq h
      · exact absurd hts h
    · simp [hreq, hts, run_emit, run_bind, run_catch, run_pure, run_raise, hh2, hh3, hh4]
  · cases hstream : env.is_streaming_job <;>
      simp [hreq, hstream, run_emit, run_bind, run_catch, run_pure, run_raise, hh2, hh3, hh4]

/-- When the body raises a `JobError`, the full run's only terminal message is
the corresponding `V0JobFailedRequest`. -/
theorem execute_jobError_terminal (env : Env) {m : String} {rsn : JobFailureReason}
    {c : Option Ctx} (h : resultOf (execRun env) = .error (.jobError m rsn c)) :
    (eventsOf (fullRun env)).filter Event.isTerminal =
      [Event.sendJobFailed (JobDriver.send_job_failed env (execRun env).1 m rsn c)] := by
  have ht := traceOk_execute env initDState
  have hev := execute_events env initDState
  have hfull : eventsOf (fullRun env) = (JobDriver.execute env initDState).2.1 := rfl
  simp only [execRun, resultOf] at h
  have hst : (execRun env).1 = (JobDriver._execute env initDState).1 := rfl
  rw [hst]
  rcases hb : JobDriver._execute env initDState with ⟨s1, evs, r⟩
  rw [hb] at ht hev h
  simp only at ht hev h
  subst h
  have hbody := filter_terminal_nil ht
  rw [hfull, hev]
  simp [List.filter_append, cleanup_no_terminal env, hbody, failureEvents, Event.isTerminal]

/-- C5: a deadline expiry (`TimeoutError`) during the startup stage is raised
as a `HordeError` with message `Timed out waiting for initial job details from
miner`, whereas a deadline expiry during the download, execution or upload
stage is raised as `JobError(TIMEOUT)` and reported via a `V0JobFailedRequest`
carrying the stage active at that time. -/
theorem c5_timeout_classification (env : Env) :
    (resultOf (startupRun env) = .error .timeoutError →
      resultOf (execRun env) = .error (.hordeError
        "Timed out waiting for initial job details from miner" .GENERIC_ERROR none)) ∧
    (∀ req, resultOf (startupRun env) = .ok req → timingOk req →
      resultOf (downloadRun env) = .error .timeoutError →
      resultOf (execRun env) = .error (.jobError "Download time exceeded" .TIMEOUT none) ∧
      ∃ msg, (eventsOf (fullRun env)).filter Event.isTerminal = [Event.sendJobFailed msg] ∧
        msg.stage = .VOLUME_DOWNLOAD ∧ msg.reason = .TIMEOUT ∧
        msg.message = "Download time exceeded") ∧
    (∀ req, resultOf (startupRun env) = .ok req → timingOk req →
      resultOf (downloadRun env) = .ok () →
      resultOf (executionRun env) = .error .timeoutError →
      resultOf (execRun env) = .error (.jobError "Execution time exceeded" .TIMEOUT none) ∧
      ∃ msg, (eventsOf (fullRun env)).filter Event.isTerminal = [Event.sendJobFailed msg] ∧
        msg.stage = .EXECUTION ∧ msg.reason = .TIMEOUT ∧
        msg.message = "Execution time exceeded") ∧
    (∀ req, resultOf (startupRun env) = .ok req → timingOk req →
      resultOf (downloadRun env) = .ok () →
      resultOf (executionRun env) = .ok () →
      resultOf (uploadRun env) = .error .timeoutError →
      resultOf (execRun env) = .error (.jobError "Upload time exceeded" .TIMEOUT none) ∧
      ∃ msg, (eventsOf (fullRun env)).filter Event.isTerminal = [Event.sendJobFailed msg] ∧
        msg.stage = .RESULT_UPLOAD ∧ msg.reason = .TIMEOUT ∧
        msg.message = "Upload time exceeded") := by
  refine ⟨?_, ?_, ?_, ?_⟩
  · intro h
    exact (execute_startup_timeout env h).1
  · intro req hS ht hD
    obtain ⟨hres, hstate⟩ := execute_download_timeout env req hS ht hD
    refine ⟨hres, _, execute_jobError_terminal env hres, ?_, rfl, rfl⟩
    show ((execRun env).1).current_stage = .VOLUME_DOWNLOAD
    rw [hstate]
    show ((JobDriver._download_stage env (startupRun env).1).1).current_stage = _
    rw [download_state]
  · intro req hS ht hD hE
    obtain ⟨hres, hstate⟩ := execute_execution_timeout env req hS ht hD hE
    refine ⟨hres, _, execute_jobError_terminal env hres, ?_, rfl, rfl⟩
    show ((execRun env).1).current_stage = .EXECUTION
    rw [hstate]
    exact execution_state_stage env _
  · intro req hS ht hD hE hU
    obtain ⟨hres, hstate⟩ := execute_upload_timeout env req hS ht hD hE hU
    refine ⟨hres, _, execute_jobError_terminal env hres, ?_, rfl, rfl⟩
    show ((execRun env).1).current_stage = .RESULT_UPLOAD
    rw [hstate]
    exact upload_state_stage env _

/-- C5 witness: a startup timeout yields the horde error, and a download
timeout (in a concrete single-timeout run) yields `JobError(TIMEOUT)`. -/
theorem c5_timeout_witness :
    resultOf (execRun { envHappy with initial_msg_outcome := .timeout }) =
      .error (.hordeError "Timed out waiting for initial job details from miner"
        .GENERIC_ERROR none) ∧
    resultOf (execRun { envHappy with full_payload_outcome := .timeout }) =
      .error (.jobError "Download time exceeded" .TIMEOUT none) :=
  ⟨(c5_timeout_classification { envHappy with initial_msg_outcome := .timeout }).1 rfl,
    ((c5_timeout_classification { envHappy with full_payload_outcome := .timeout }).2.1
      reqTimeoutOnly rfl (Or.inr fun hcon => Option.noConfusion hcon) rfl).1⟩

/-- With neither timing source supplied, `_execute` raises the exact
no-timing `HordeError`. -/
theorem execute_no_timing (env : Env) (req : V0InitialJobRequest)
    (hS : resultOf (startupRun env) = .ok req)
    (h1 : req.executor_timing = none) (h2 : req.timeout_seconds = none) :
    resultOf (execRun env) = .error (.hordeError
      "No timing received: either timeout_seconds or timing_details must be set"
      .GENERIC_ERROR none) := by
  simp only [startupRun, resultOf] at hS
  simp only [execRun, resultOf, JobDriver._execute, JobDriver._set_deadline, run_bind,
    run_emit, run_catch, run_pure, run_raise]
  rcases hh : JobDriver._startup_stage env initDState with ⟨s1, sevs, r⟩
  rw [hh] at hS
  simp only at hS
  subst hS
  simp [h1, h2, run_raise, run_bind, run_emit, run_catch, run_pure]

/-- A list of non-deadline events filters to nothing under either deadline
predicate. -/
theorem filter_deadline_nil {evs : List Event}
    (h : evs.all (fun e => !Event.isDeadlineEvt e) = true) :
    evs.filter Event.isSetDeadline = [] ∧ evs.filter Event.isExtendDeadline = [] := by
  constructor <;> rw [List.filter_eq_nil_iff] <;> intro a ha <;>
    have hb := (List.all_eq_true.mp h) a ha <;>
    cases a <;> simp_all [Event.isDeadlineEvt, Event.isSetDeadline, Event.isExtendDeadline]

/-- In single-timeout mode the only deadline-timer calls of the whole run are
the startup `set` and the single-timeout `set`: no stage ever extends. -/
theorem execute_singleTimeout_deadlines (env : Env) (req : V0InitialJobRequest) (t : Rat)
    (hS : resultOf (startupRun env) = .ok req)
    (h1 : req.executor_timing = none) (h2 : req.timeout_seconds = some t) :
    (eventsOf (execRun env)).filter Event.isSetDeadline =
      [Event.setDeadline env.startup_time_limit "startup time limit",
        Event.setDeadline t "single-timeout mode"] ∧
    (eventsOf (execRun env)).filter Event.isExtendDeadline = [] := by
  simp only [startupRun, resultOf] at hS
  have hsev := startup_noDeadline env initDState
  simp only [execRun, eventsOf, JobDriver._execute, JobDriver._set_deadline,
    JobDriver._extend_deadline, run_bind, run_emit, run_catch, run_pure, run_raise]
  rcases hh : JobDriver._startup_stage env initDState with ⟨s1, sevs, r⟩
  rw [hh] at hS hsev
  simp only at hS hsev
  subst hS
  simp only [h1, h2]
  obtain ⟨hsev1, hsev2⟩ := filter_deadline_nil hsev
  have hdev := download_noDeadline env s1
  rcases hh2 : JobDriver._download_stage env s1 with ⟨s2, devs, r2⟩
  rw [hh2] at hdev
  simp only at hdev
  obtain ⟨hdev1, hdev2⟩ := filter_deadline_nil hdev
  cases r2 with
  | error e2 =>
    cases e2 <;>
      simp [run_bind, run_emit, run_catch, run_pure, h1, h2, hh2, List.filter_append,
        hsev1, hsev2, hdev1, hdev2, Event.isSetDeadline, Event.isExtendDeadline]
  | ok u2 =>
    have heev := execution_noDeadline env s2
    rcases hh3 : JobDriver._execution_stage env s2 with ⟨s3, eevs, r3⟩
    rw [hh3] at heev
    simp only at heev
    obtain ⟨heev1, heev2⟩ := filter_deadline_nil heev
    cases r3 with
    | error e3 =>
      cases e3 <;>
        simp [run_bind, run_emit, run_catch, run_pure, h1, h2, hh2, hh3, List.filter_append,
          hsev1, hsev2, hdev1, hdev2, heev1, heev2, Event.isSetDeadline,
          Event.isExtendDeadline]
    | ok u3 =>
      have huev := upload_noDeadline env s3
      rcases hh4 : JobDriver._upload_stage env s3 with ⟨s4, uevs, r4⟩
      rw [hh4] at huev
      simp only at huev
      obtain ⟨huev1, huev2⟩ := filter_deadline_nil huev
      cases r4 with
      | error e4 =>
        cases e4 <;>
          simp [run_bind, run_emit, run_catch, run_pure, h1, h2, hh2, hh3, hh4,
            List.filter_append, hsev1, hsev2, hdev1, hdev2, heev1, heev2, huev1, huev2,
            Event.isSetDeadline, Event.isExtendDeadline]
      | ok u4 =>
        simp [run_bind, run_emit, run_catch, run_pure, h1, h2, hh2, hh3, hh4,
          List.filter_append, hsev1, hsev2, hdev1, hdev2, heev1, heev2, huev1, huev2,
          Event.isSetDeadline, Event.isExtendDeadline]

/-- With timing details, the trace after startup sets the leeway deadline and
extends by the download limit immediately before the download stage's events,
whatever the rest of the run does. -/
theorem execute_timing_download_prefix (env : Env) (req : V0InitialJobRequest)
    (td : TimingDetails)
    (hS : resultOf (startupRun env) = .ok req)
    (htd : req.executor_timing = some td) :
    ∃ tail, eventsOf (execRun env) =
      Event.setDeadline env.startup_time_limit "startup time limit" ::
        (eventsOf (startupRun env) ++
          Event.setDeadline td.allowed_leeway "allowed leeway" ::
          Event.extendDeadline td.download_time_limit "download time limit" ::
          (eventsOf (downloadRun env) ++ tail)) := by
  simp only [startupRun, downloadRun, resultOf, eventsOf] at hS ⊢
  simp only [execRun, JobDriver._execute, JobDriver._set_deadline, JobDriver._extend_deadline,
    run_bind, run_emit, run_catch, run_pure, run_raise]
  rcases hh : JobDriver._startup_stage env initDState with ⟨s1, sevs, r⟩
  rw [hh] at hS
  simp only at hS
  subst hS
  simp only [htd]
  rcases hh2 : JobDriver._download_stage env s1 with ⟨s2, devs, r2⟩
  cases r2 with
  | error e2 =>
    cases e2 <;>
      exact ⟨[], by simp [run_bind, run_emit, run_catch, run_pure, hh2, htd,
        List.append_assoc]⟩
  | ok u2 =>
    rcases hh3 : JobDriver._execution_stage env s2 with ⟨s3, eevs, r3⟩
    cases hstream : env.is_streaming_job with
    | false =>
      cases r3 with
      | error e3 =>
        cases e3 <;>
          exact ⟨Event.extendDeadline td.execution_time_limit "execution time limit" :: eevs,
            by simp [run_bind, run_emit, run_catch, run_pure, hh2, hh3, htd, hstream,
              List.append_assoc]⟩
      | ok u3 =>
        rcases hh4 : JobDriver._upload_stage env s3 with ⟨s4, uevs, r4⟩
        cases r4 with
        | error e4 =>
          cases e4 <;>
            exact ⟨Event.extendDeadline td.execution_time_limit "execution time limit" ::
              (eevs ++ Event.extendDeadline td.upload_time_limit "upload time limit" :: uevs),
              by simp [run_bind, run_emit, run_catch, run_pure, hh2, hh3, hh4, htd, hstream,
                List.append_assoc]⟩
        | ok u4 =>
          exact ⟨Event.extendDeadline td.execution_time_limit "execution time limit" ::
            (eevs ++ Event.extendDeadline td.upload_time_limit "upload time limit" :: uevs),
            by simp [run_bind, run_emit, run_catch, run_pure, hh2, hh3, hh4, htd, hstream,
              List.append_assoc]⟩
    | true =>
      cases r3 with
      | error e3 =>
        cases e3 <;>
          exact ⟨Event.extendDeadline td.execution_time_limit "execution time limit" ::
            Event.extendDeadline td.streaming_start_time_limit "streaming start time limit" ::
            eevs,
            by simp [run_bind, run_emit, run_catch, run_pure, hh2, hh3, htd, hstream,
              List.append_assoc]⟩
      | ok u3 =>
        rcases hh4 : JobDriver._upload_stage env s3 with ⟨s4, uevs, r4⟩
        cases r4 with
        | error e4 =>
          cases e4 <;>
            exact ⟨Event.extendDeadline td.execution_time_limit "execution time limit" ::
              Event.extendDeadline td.streaming_start_time_limit "streaming start time limit" ::
              (eevs ++ Event.extendDeadline td.upload_time_limit "upload time limit" :: uevs),
              by simp [run_bind, run_emit, run_catch, run_pure, hh2, hh3, hh4, htd, hstream,
                List.append_assoc]⟩
        | ok u4 =>
          exact ⟨Event.extendDeadline td.execution_time_limit "execution time limit" ::
            Event.extendDeadline td.streaming_start_time_limit "streaming start time limit" ::
            (eevs ++ Event.extendDeadline td.upload_time_limit "upload time limit" :: uevs),
            by simp [run_bind, run_emit, run_catch, run_pure, hh2, hh3, hh4, htd, hstream,
              List.append_assoc]⟩

/-- With timing details and a successful download, the trace extends by the
execution limit (plus the streaming-start limit for a streaming job)
immediately before the execution stage's events. -/
theorem execute_timing_execution_prefix (env : Env) (req : V0InitialJobRequest)
    (td : TimingDetails)
    (hS : resultOf (startupRun env) = .ok req)
    (htd : req.executor_timing = some td)
    (hD : resultOf (downloadRun env) = .ok ()) :
    ∃ tail, eventsOf (execRun env) =
      Event.setDeadline env.startup_time_limit "startup time limit" ::
        (eventsOf (startupRun env) ++
          Event.setDeadline td.allowed_leeway "allowed leeway" ::
          Event.extendDeadline td.download_time_limit "download time limit" ::
          (eventsOf (downloadRun env) ++
            Event.extendDeadline td.execution_time_limit "execution time limit" ::
            ((if env.is_streaming_job then
                [Event.extendDeadline td.streaming_start_time_limit
                  "streaming start time limit"]
              else []) ++
              (eventsOf (executionRun env) ++ tail)))) := by
  simp only [startupRun, downloadRun, executionRun, resultOf, eventsOf] at hS hD ⊢
  simp only [execRun, JobDriver._execute, JobDriver._set_deadline, JobDriver._extend_deadline,
    run_bind, run_emit, run_catch, run_pure, run_raise]
  rcases hh : JobDriver._startup_stage env initDState with ⟨s1, sevs, r⟩
  rw [hh] at hS hD
  simp only at hS hD
  subst hS
  simp only [htd]
  rcases hh2 : JobDriver._download_stage env s1 with ⟨s2, devs, r2⟩
  rw [hh2] at hD
  simp only at hD
  subst hD
  rcases hh3 : JobDriver._execution_stage env s2 with ⟨s3, eevs, r3⟩
  cases hstream : env.is_streaming_job with
  | false =>
    cases r3 with
    | error e3 =>
      cases e3 <;>
        exact ⟨[], by simp [run_bind, run_emit, run_catch, run_pure, hh2, hh3, htd, hstream,
          List.append_assoc]⟩
    | ok u3 =>
      rcases hh4 : JobDriver._upload_stage env s3 with ⟨s4, uevs, r4⟩
      cases r4 with
      | error e4 =>
        cases e4 <;>
          exact ⟨Event.extendDeadline td.upload_time_limit "upload time limit" :: uevs,
            by simp [run_bind, run_emit, run_catch, run_pure, hh2, hh3, hh4, htd, hstream,
              List.append_assoc]⟩
      | ok u4 =>
        exact ⟨Event.extendDeadline td.upload_time_limit "upload time limit" :: uevs,
          by simp [run_bind, run_emit, run_catch, run_pure, hh2, hh3, hh4, htd, hstream,
            List.append_assoc]⟩
  | true =>
    cases r3 with
    | error e3 =>
      cases e3 <;>
        exact ⟨[], by simp [run_bind, run_emit, run_catch, run_pure, hh2, hh3, htd, hstream,
          List.append_assoc]⟩
    | ok u3 =>
      rcases hh4 : JobDriver._upload_stage env s3 with ⟨s4, uevs, r4⟩
      cases r4 with
      | error e4 =>
        cases e4 <;>
          exact ⟨Event.extendDeadline td.upload_time_limit "upload time limit" :: uevs,
            by simp [run_bind, run_emit, run_catch, run_pure, hh2, hh3, hh4, htd, hstream,
              List.append_assoc]⟩
      | ok u4 =>
        exact ⟨Event.extendDeadline td.upload_time_limit "upload time limit" :: uevs,
          by simp [run_bind, run_emit, run_catch, run_pure, hh2, hh3, hh4, htd, hstream,
            List.append_assoc]⟩

/-- With timing details and successful download and execution stages, the
trace extends by the upload limit immediately before the upload stage's
events. -/
theorem execute_timing_upload_prefix (env : Env) (req : V0InitialJobRequest)
    (td : TimingDetails)
    (hS : resultOf (startupRun env) = .ok req)
    (htd : req.executor_timing = some td)
    (hD : resultOf (downloadRun env) = .ok ())
    (hE : resultOf (executionRun env) = .ok ()) :
    ∃ tail, eventsOf (execRun env) =
      Event.setDeadline env.startup_time_limit "startup time limit" ::
        (eventsOf (startupRun env) ++
          Event.setDeadline td.allowed_leeway "allowed leeway" ::
          Event.extendDeadline td.download_time_limit "download time limit" ::
          (eventsOf (downloadRun env) ++
            Event.extendDeadline td.execution_time_limit "execution time limit" ::
            ((if env.is_streaming_job then
                [Event.extendDeadline td.streaming_start_time_limit
                  "streaming start time limit"]
              else []) ++
              (eventsOf (executionRun env) ++
                Event.extendDeadline td.upload_time_limit "upload time limit" ::
                (eventsOf (uploadRun env) ++ tail))))) := by
  simp only [startupRun, downloadRun, executionRun, uploadRun, resultOf, eventsOf] at hS hD hE ⊢
  simp only [execRun, JobDriver._execute, JobDriver._set_deadline, JobDriver._extend_deadline,
    run_bind, run_emit, run_catch, run_pure, run_raise]
  rcases hh : JobDriver._startup_stage env initDState with ⟨s1, sevs, r⟩
  rw [hh] at hS hD hE
  simp only at hS hD hE
  subst hS
  simp only [htd]
  rcases hh2 : JobDriver._download_stage env s1 with ⟨s2, devs, r2⟩
  rw [hh2] at hD hE
  simp only at hD hE
  subst hD
  rcases hh3 : JobDriver._execution_stage env s2 with ⟨s3, eevs, r3⟩
  rw [hh3] at hE
  simp only at hE
  subst hE
  rcases hh4 : JobDriver._upload_stage env s3 with ⟨s4, uevs, r4⟩
  cases hstream : env.is_streaming_job with
  | false =>
    cases r4 with
    | error e4 =>
      cases e4 <;>
        exact ⟨[], by simp [run_bind, run_emit, run_catch, run_pure, hh2, hh3, hh4, htd,
          hstream, List.append_assoc]⟩
    | ok u4 =>
      exact ⟨[], by simp [run_bind, run_emit, run_catch, run_pure, hh2, hh3, hh4, htd,
        hstream, List.append_assoc]⟩
  | true =>
    cases r4 with
    | error e4 =>
      cases e4 <;>
        exact ⟨[], by simp [run_bind, run_emit, run_catch, run_pure, hh2, hh3, hh4, htd,
          hstream, List.append_assoc]⟩
    | ok u4 =>
      exact ⟨[], by simp [run_bind, run_emit, run_catch, run_pure, hh2, hh3, hh4, htd,
        hstream, List.append_assoc]⟩

/-- C4: after startup, `timing_details` takes precedence — when present the
deadline is set to `allowed_leeway` (even if `timeout_seconds` is also
present) and each of the download, execution and upload stages extends the
deadline by its per-stage limit immediately before its bounded work, a
streaming job additionally extending by the streaming-start limit before
execution; with only `timeout_seconds` the deadline is set once to that value
and no extension is ever performed; with neither, the driver raises the
no-timing `HordeError` with its exact message. -/
theorem c4_timing_schedule (env : Env) (req : V0InitialJobRequest)
    (hS : resultOf (startupRun env) = .ok req) :
    (req.executor_timing = none → req.timeout_seconds = none →
      resultOf (execRun env) = .error (.hordeError
        "No timing received: either timeout_seconds or timing_details must be set"
        .GENERIC_ERROR none)) ∧
    (∀ t, req.executor_timing = none → req.timeout_seconds = some t →
      (eventsOf (execRun env)).filter Event.isSetDeadline =
        [Event.setDeadline env.startup_time_limit "startup time limit",
          Event.setDeadline t "single-timeout mode"] ∧
      (eventsOf (execRun env)).filter Event.isExtendDeadline = []) ∧
    (∀ td, req.executor_timing = some td →
      ∃ tail, eventsOf (execRun env) =
        Event.setDeadline env.startup_time_limit "startup time limit" ::
          (eventsOf (startupRun env) ++
            Event.setDeadline td.allowed_leeway "allowed leeway" ::
            Event.extendDeadline td.download_time_limit "download time limit" ::
            (eventsOf (downloadRun env) ++ tail))) ∧
    (∀ td, req.executor_timing = some td → resultOf (downloadRun env) = .ok () →
      ∃ tail, eventsOf (execRun env) =
        Event.setDeadline env.startup_time_limit "startup time limit" ::
          (eventsOf (startupRun env) ++
            Event.setDeadline td.allowed_leeway "allowed leeway" ::
            Event.extendDeadline td.download_time_limit "download time limit" ::
            (eventsOf (downloadRun env) ++
              Event.extendDeadline td.execution_time_limit "execution time limit" ::
              ((if env.is_streaming_job then
                  [Event.extendDeadline td.streaming_start_time_limit
                    "streaming start time limit"]
                else []) ++
                (eventsOf (executionRun env) ++ tail))))) ∧
    (∀ td, req.executor_timing = some td → resultOf (downloadRun env) = .ok () →
      resultOf (executionRun env) = .ok () →
      ∃ tail, eventsOf (execRun env) =
        Event.setDeadline env.startup_time_limit "startup time limit" ::
          (eventsOf (startupRun env) ++
            Event.setDeadline td.allowed_leeway "allowed leeway" ::
            Event.extendDeadline td.download_time_limit "download time limit" ::
            (eventsOf (downloadRun env) ++
              Event.extendDeadline td.execution_time_limit "execution time limit" ::
              ((if env.is_streaming_job then
                  [Event.extendDeadline td.streaming_start_time_limit
                    "streaming start time limit"]
                else []) ++
                (eventsOf (executionRun env) ++
                  Event.extendDeadline td.upload_time_limit "upload time limit" ::
                  (eventsOf (uploadRun env) ++ tail)))))) :=
  ⟨fun h1 h2 => execute_no_timing env req hS h1 h2,
    fun t h1 h2 => execute_singleTimeout_deadlines env req t hS h1 h2,
    fun td htd => execute_timing_download_prefix env req td hS htd,
    fun td htd hD => execute_timing_execution_prefix env req td hS htd hD,
    fun td htd hD hE => execute_timing_upload_prefix env req td hS htd hD hE⟩

/-- C4 witness: the single-timeout run sets exactly the startup and
single-timeout deadlines with no extensions, and a timing-details run sets the
leeway deadline and extends by the download limit before the download stage. -/
theorem c4_timing_witness :
    ((eventsOf (execRun envHappy)).filter Event.isSetDeadline =
      [Event.setDeadline 5 "startup time limit", Event.setDeadline 10 "single-timeout mode"] ∧
      (eventsOf (execRun envHappy)).filter Event.isExtendDeadline = []) ∧
    (∃ tail, eventsOf (execRun { envHappy with initial_msg_outcome := .ok reqTiming }) =
      Event.setDeadline 5 "startup time limit" ::
        (eventsOf (startupRun { envHappy with initial_msg_outcome := .ok reqTiming }) ++
          Event.setDeadline 3 "allowed leeway" ::
          Event.extendDeadline 4 "download time limit" ::
          (eventsOf (downloadRun { envHappy with initial_msg_outcome := .ok reqTiming }) ++
            tail))) :=
  ⟨(c4_timing_schedule envHappy reqTimeoutOnly rfl).2.1 10 rfl rfl,
    (c4_timing_schedule { envHappy with initial_msg_outcome := .ok reqTiming } reqTiming
      rfl).2.2.1 tdSample rfl⟩
